import Mathlib

/-!
# The `ktoonservative` cpufreq governor

A shallow embedding of `drivers/cpufreq/cpufreq_ktoonservative.c`: the per-tick
decision function `dbs_check_cpu`, the boost trigger `boostpulse_relay_kt`, the screen
notification `screen_is_on_relay_kt` and the sysfs store handlers, followed by theorems
about them.

Conventions.
* `unsigned int` values are natural numbers; every C operation that can leave the
  32-bit range is written with an explicit reduction modulo `2^32`.
* `int` values are integers; the kernel is built with wrapping signed arithmetic
  (`-fno-strict-overflow`), so `cnt++` is `to_s32 (cnt + 1)`, and an `int` compared
  with an `unsigned int` is first converted to `unsigned int` (`s32_to_u32`).
* Calls into the rest of the kernel (`__cpufreq_driver_target`, `schedule_work_on`,
  `boost_the_gpu`) are recorded, in program order, in a list of `Call`s.
* What a tick reads from outside the file (the policy, the idle accounting, the number
  of online CPUs) is a `TickEnv`.
-/

namespace Ktoonservative

/-! ## Machine arithmetic -/

/-- Truncation to `unsigned int`. -/
def wrap_u32 (n : Nat) : Nat := n % 4294967296

/-- Subtraction of `unsigned int` values: `a - b` modulo `2^32`. -/
def sub_u32 (a b : Nat) : Nat := (a % 4294967296 + (4294967296 - b % 4294967296)) % 4294967296

/-- Subtraction of `u64` values: `a - b` modulo `2^64`. -/
def sub_u64 (a b : Nat) : Nat :=
  (a % 18446744073709551616 + (18446744073709551616 - b % 18446744073709551616))
    % 18446744073709551616

/-- Wrapping of an integer into the range of `int`. -/
def to_s32 (x : Int) : Int := (x + 2147483648) % 4294967296 - 2147483648

/-- Conversion of an `int` to `unsigned int`. -/
def s32_to_u32 (x : Int) : Nat := (x % 4294967296).toNat

/-! ## Data model -/

/-- The tunables, `struct dbs_tuners`. -/
structure dbs_tuners where
  sampling_rate : Nat
  sampling_rate_screen_off : Nat
  sampling_down_factor : Nat
  up_threshold : Nat
  up_threshold_hotplug : Nat
  down_threshold : Nat
  down_threshold_hotplug : Nat
  block_cycles_online : Nat
  block_cycles_offline : Nat
  block_cycles_raise : Nat
  block_cycles_reduce : Nat
  boost_cpu : Nat
  boost_turn_on_2nd_core : Nat
  boost_gpu : Nat
  boost_hold_cycles : Nat
  disable_hotplugging : Nat
  no_2nd_cpu_screen_off : Nat
  ignore_nice : Nat
  freq_step_up : Nat
  freq_step_down : Nat
  up_freq_threshold_hotplug : Nat
  down_freq_threshold_hotplug : Nat
deriving DecidableEq, Repr

/-- The static initialiser of `dbs_tuners_ins`; fields it does not name are zero. -/
def dbs_tuners_default : dbs_tuners where
  sampling_rate := 0
  sampling_rate_screen_off := 45000
  sampling_down_factor := 1
  up_threshold := 57
  up_threshold_hotplug := 58
  down_threshold := 52
  down_threshold_hotplug := 35
  block_cycles_online := 10
  block_cycles_offline := 25
  block_cycles_raise := 2
  block_cycles_reduce := 3
  boost_cpu := 800000
  boost_turn_on_2nd_core := 1
  boost_gpu := 350
  boost_hold_cycles := 22
  disable_hotplugging := 0
  no_2nd_cpu_screen_off := 1
  ignore_nice := 0
  freq_step_up := 5
  freq_step_down := 5
  up_freq_threshold_hotplug := 1200000
  down_freq_threshold_hotplug := 800000

/-- The fields of `struct cpufreq_policy` the governor reads. -/
structure cpufreq_policy where
  min : Nat
  max : Nat
  cur : Nat
deriving DecidableEq, Repr

/-- The sampling fields of `struct cpu_dbs_info_s`, one record per CPU of the policy. -/
structure cpu_dbs_info_s where
  cpu : Nat
  prev_cpu_idle : Nat
  prev_cpu_wall : Nat
  prev_cpu_nice : Nat
deriving DecidableEq, Repr

/-- The state of the governor: the file-level variables, the `requested_freq` and
`down_skip` fields of `this_dbs_info`, and the sampling records of the CPUs in
`policy->cpus`, in iteration order. -/
structure GovState where
  dbs_tuners_ins : dbs_tuners
  stored_sampling_rate : Nat
  Lblock_cycles_online : Nat
  Lblock_cycles_offline : Nat
  Lblock_cycles_raise : Nat
  Lblock_cycles_reduce : Nat
  boostpulse_relayf : Bool
  boost_hold_cycles_cnt : Int
  screen_is_on : Bool
  requested_freq : Nat
  down_skip : Nat
  cpus : List cpu_dbs_info_s
deriving DecidableEq, Repr

/-- The frequency relation passed to `__cpufreq_driver_target`. -/
inductive Relation where
  | CPUFREQ_RELATION_L
  | CPUFREQ_RELATION_H
deriving DecidableEq, Repr

/-- The calls a function of this file makes into the rest of the kernel. -/
inductive Call where
  | cpufreq_driver_target (target_freq : Nat) (relation : Relation)
  | schedule_hotplug_online_work
  | schedule_hotplug_offline_work
  | boost_the_gpu (freq : Int) (cycles : Int)
deriving DecidableEq, Repr

/-- What one tick reads from outside this file. `get_cpu_idle_time j` is the pair
(cumulative idle time, cumulative wall time) of CPU `j`; `num_online_cpus` is the number
of online CPUs while the tick runs (the tick only schedules hotplug work, it does not
itself change the number). The two time conversions and the width of `unsigned long`
are kernel configuration. -/
structure TickEnv where
  policy : cpufreq_policy
  get_cpu_idle_time : Nat → Nat × Nat
  kcpustat_nice : Nat → Nat
  cputime64_to_jiffies64 : Nat → Nat
  jiffies_to_usecs : Nat → Nat
  bits_per_long : Nat
  num_online_cpus : Nat

/-! ## The load sampler (the `for_each_cpu` loop of `dbs_check_cpu`) -/

/-- The `unsigned int` value `wall_time` of CPU `j` in this tick. -/
def wall_time (e : TickEnv) (j : cpu_dbs_info_s) : Nat :=
  wrap_u32 (sub_u64 (e.get_cpu_idle_time j.cpu).2 j.prev_cpu_wall)

/-- The `unsigned int` value `idle_time` of CPU `j` in this tick, after the nice time
has been added when `ignore_nice` is set. -/
def idle_time (tun : dbs_tuners) (e : TickEnv) (j : cpu_dbs_info_s) : Nat :=
  let idle := wrap_u32 (sub_u64 (e.get_cpu_idle_time j.cpu).1 j.prev_cpu_idle)
  if tun.ignore_nice ≠ 0 then
    let cur_nice := sub_u64 (e.kcpustat_nice j.cpu) j.prev_cpu_nice
    let cur_nice_jiffies := e.cputime64_to_jiffies64 cur_nice % 2 ^ e.bits_per_long
    wrap_u32 (idle + wrap_u32 (e.jiffies_to_usecs cur_nice_jiffies))
  else idle

/-- The sampling record of CPU `j` after the tick has read it. -/
def update_sample (tun : dbs_tuners) (e : TickEnv) (j : cpu_dbs_info_s) : cpu_dbs_info_s :=
  { j with
    prev_cpu_wall := (e.get_cpu_idle_time j.cpu).2
    prev_cpu_idle := (e.get_cpu_idle_time j.cpu).1
    prev_cpu_nice := if tun.ignore_nice ≠ 0 then e.kcpustat_nice j.cpu else j.prev_cpu_nice }

/-- The load of one CPU: `none` when the CPU is skipped (`!wall_time || wall_time <
idle_time`), otherwise `100 * (wall_time - idle_time) / wall_time` in `unsigned int`. -/
def cpu_load (wall idle : Nat) : Option Nat :=
  if wall = 0 ∨ wall < idle then none
  else some (wrap_u32 (100 * (wall - idle)) / wall)

/-- The loop over `policy->cpus`: the updated records and the final `max_load`. -/
def load_loop (tun : dbs_tuners) (e : TickEnv) :
    List cpu_dbs_info_s → Nat → List cpu_dbs_info_s × Nat
  | [], max_load => ([], max_load)
  | j :: js, max_load =>
    let max_load1 :=
      match cpu_load (wall_time e j) (idle_time tun e j) with
      | none => max_load
      | some load => if load > max_load then load else max_load
    let rest := load_loop tun e js max_load1
    (update_sample tun e j :: rest.1, rest.2)

/-! ## The decision steps of `dbs_check_cpu` -/

/-- The boost branch, taken when `boostpulse_relayf` is set on entry. -/
def boost_tick (s : GovState) (e : TickEnv) : GovState × List Call :=
  let s1 : GovState :=
    if s32_to_u32 s.boost_hold_cycles_cnt ≥ s.dbs_tuners_ins.boost_hold_cycles then
      { s with boostpulse_relayf := false, boost_hold_cycles_cnt := 0 }
    else s
  let s2 : GovState :=
    { s1 with boost_hold_cycles_cnt := to_s32 (s1.boost_hold_cycles_cnt + 1), down_skip := 0 }
  if s2.requested_freq = e.policy.max ∨ e.policy.cur ≥ s2.dbs_tuners_ins.boost_cpu
      ∨ s2.requested_freq > s2.dbs_tuners_ins.boost_cpu then
    (s2, [])
  else
    ({ s2 with requested_freq := s2.dbs_tuners_ins.boost_cpu },
      [Call.cpufreq_driver_target s2.dbs_tuners_ins.boost_cpu Relation.CPUFREQ_RELATION_H])

/-- The check "frequency increase is greater than hotplug value". -/
def hotplug_online_check (s : GovState) (e : TickEnv) (max_load : Nat) :
    GovState × List Call :=
  if max_load > s.dbs_tuners_ins.up_threshold_hotplug
      ∧ e.policy.cur > s.dbs_tuners_ins.up_freq_threshold_hotplug then
    if e.num_online_cpus < 2 ∧ e.policy.cur ≠ e.policy.min then
      let s1 : GovState := { s with Lblock_cycles_online := wrap_u32 (s.Lblock_cycles_online + 1) }
      if s1.Lblock_cycles_online > s1.dbs_tuners_ins.block_cycles_online
          ∧ (s1.dbs_tuners_ins.no_2nd_cpu_screen_off = 0
              ∨ (s1.dbs_tuners_ins.no_2nd_cpu_screen_off = 1 ∧ s1.screen_is_on = true)) then
        ({ s1 with Lblock_cycles_online := 0, Lblock_cycles_offline := 0 },
          [Call.schedule_hotplug_online_work])
      else (s1, [])
    else (s, [])
  else (s, [])

/-- The new `requested_freq` of a raise: `freq_target = freq_step_up * policy->max / 100`,
replaced by 5 when it is 0, is added and the sum is capped at `policy->max`. -/
def raise_target (tun : dbs_tuners) (policy : cpufreq_policy) (requested_freq : Nat) : Nat :=
  let freq_target0 := wrap_u32 (tun.freq_step_up * policy.max) / 100
  let freq_target := if freq_target0 = 0 then 5 else freq_target0
  let requested0 := wrap_u32 (requested_freq + freq_target)
  if requested0 > policy.max then policy.max else requested0

/-- The body of `if (max_load > up_threshold)`, up to its `return`. -/
def freq_raise (s : GovState) (e : TickEnv) : GovState × List Call :=
  let s1 : GovState := { s with Lblock_cycles_raise := wrap_u32 (s.Lblock_cycles_raise + 1) }
  if s1.Lblock_cycles_raise ≥ s1.dbs_tuners_ins.block_cycles_raise then
    if s1.requested_freq = e.policy.max then
      ({ s1 with Lblock_cycles_raise := 0, Lblock_cycles_reduce := 0 }, [])
    else
      let requested := raise_target s1.dbs_tuners_ins e.policy s1.requested_freq
      ({ s1 with requested_freq := requested, Lblock_cycles_raise := 0, Lblock_cycles_reduce := 0 },
        [Call.cpufreq_driver_target requested Relation.CPUFREQ_RELATION_H])
  else (s1, [])

/-- The check that may take a CPU offline. -/
def hotplug_offline_check (s : GovState) (e : TickEnv) (max_load : Nat) :
    GovState × List Call :=
  if max_load < s.dbs_tuners_ins.down_threshold_hotplug
      ∧ s.dbs_tuners_ins.disable_hotplugging = 0
      ∧ e.policy.cur < s.dbs_tuners_ins.down_freq_threshold_hotplug then
    if e.num_online_cpus > 1 then
      let s1 : GovState :=
        { s with Lblock_cycles_offline := wrap_u32 (s.Lblock_cycles_offline + 1) }
      if s1.Lblock_cycles_offline > s1.dbs_tuners_ins.block_cycles_offline then
        ({ s1 with Lblock_cycles_online := 0, Lblock_cycles_offline := 0 },
          [Call.schedule_hotplug_offline_work])
      else (s1, [])
    else (s, [])
  else (s, [])

/-- The new `requested_freq` of a reduce: `freq_target = freq_step_down * policy->max /
100` is subtracted in `unsigned int` and a result below `policy->min` is raised to it. -/
def reduce_target (tun : dbs_tuners) (policy : cpufreq_policy) (requested_freq : Nat) : Nat :=
  let freq_target := wrap_u32 (tun.freq_step_down * policy.max) / 100
  let requested0 := sub_u32 requested_freq freq_target
  if requested0 < policy.min then policy.min else requested0

/-- The body of `if (max_load < (down_threshold - 10))`, up to its `return`. -/
def freq_reduce (s : GovState) (e : TickEnv) : GovState × List Call :=
  let s1 : GovState := { s with Lblock_cycles_reduce := wrap_u32 (s.Lblock_cycles_reduce + 1) }
  if s1.Lblock_cycles_reduce > s1.dbs_tuners_ins.block_cycles_reduce then
    if e.policy.cur = e.policy.min then
      ({ s1 with Lblock_cycles_raise := 0, Lblock_cycles_reduce := 0 }, [])
    else
      let requested := reduce_target s1.dbs_tuners_ins e.policy s1.requested_freq
      ({ s1 with requested_freq := requested, Lblock_cycles_raise := 0, Lblock_cycles_reduce := 0 },
        [Call.cpufreq_driver_target requested Relation.CPUFREQ_RELATION_H])
  else (s1, [])

/-- The part of `dbs_check_cpu` after the sampling loop, for the domain load `max_load`. -/
def hysteresis (s : GovState) (e : TickEnv) (max_load : Nat) : GovState × List Call :=
  if s.dbs_tuners_ins.freq_step_up = 0 ∨ s.dbs_tuners_ins.freq_step_down = 0 then (s, [])
  else
    let r1 := hotplug_online_check s e max_load
    if max_load > s.dbs_tuners_ins.up_threshold then
      let r2 := freq_raise r1.1 e
      (r2.1, r1.2 ++ r2.2)
    else
      let r3 := hotplug_offline_check r1.1 e max_load
      if max_load < sub_u32 s.dbs_tuners_ins.down_threshold 10 then
        let r4 := freq_reduce r3.1 e
        (r4.1, r1.2 ++ r3.2 ++ r4.2)
      else (r3.1, r1.2 ++ r3.2)

/-- The domain load `max_load` a non-boost tick computes. -/
def max_load (s : GovState) (e : TickEnv) : Nat :=
  (load_loop s.dbs_tuners_ins e s.cpus 0).2

/-- One tick: `dbs_check_cpu`. -/
def dbs_check_cpu (s : GovState) (e : TickEnv) : GovState × List Call :=
  if s.boostpulse_relayf = true then boost_tick s e
  else
    hysteresis { s with cpus := (load_loop s.dbs_tuners_ins e s.cpus 0).1 } e (max_load s e)

/-- The state after a sequence of ticks, one environment per tick. -/
def run_ticks (s : GovState) : List TickEnv → GovState
  | [] => s
  | e :: es => run_ticks (dbs_check_cpu s e).1 es

/-! ## The notification entry points -/

/-- The value of `screen_is_on_relay_kt(state)`. -/
def screen_is_on_relay_kt (s : GovState) (state : Bool) : GovState :=
  let s1 : GovState := { s with screen_is_on := state }
  if state = true then
    if s1.stored_sampling_rate > 0 then
      { s1 with dbs_tuners_ins :=
          { s1.dbs_tuners_ins with sampling_rate := s1.stored_sampling_rate } }
    else s1
  else
    { s1 with
      stored_sampling_rate := s1.dbs_tuners_ins.sampling_rate
      dbs_tuners_ins :=
        { s1.dbs_tuners_ins with sampling_rate := s1.dbs_tuners_ins.sampling_rate_screen_off } }

/-- The `boost_the_gpu` request both branches of `boostpulse_relay_kt` issue. -/
def gpu_boost_calls (tun : dbs_tuners) : List Call :=
  if tun.boost_gpu > 0 then
    let bpc : Int := to_s32 ((tun.boost_hold_cycles / 2 : Nat) : Int)
    if tun.boost_hold_cycles > 0 then [Call.boost_the_gpu (to_s32 (tun.boost_gpu : Int)) bpc]
    else [Call.boost_the_gpu (to_s32 (tun.boost_gpu : Int)) 0]
  else []

/-- The boost trigger `boostpulse_relay_kt`, with `num_online_cpus` the number of online
CPUs at the call. -/
def boostpulse_relay_kt (s : GovState) (num_online_cpus : Nat) : GovState × List Call :=
  if s.boostpulse_relayf = false then
    let calls := gpu_boost_calls s.dbs_tuners_ins
    if num_online_cpus < 2 ∧ s.dbs_tuners_ins.boost_turn_on_2nd_core ≠ 0 then
      ({ s with boostpulse_relayf := true, boost_hold_cycles_cnt := 0 },
        calls ++ [Call.schedule_hotplug_online_work])
    else if s.dbs_tuners_ins.boost_turn_on_2nd_core = 0 ∧ s.dbs_tuners_ins.boost_cpu = 0
        ∧ s.dbs_tuners_ins.boost_gpu = 0 then
      (s, calls)
    else
      ({ s with boostpulse_relayf := true, boost_hold_cycles_cnt := 0 }, calls)
  else
    ({ s with boost_hold_cycles_cnt := 0 }, gpu_boost_calls s.dbs_tuners_ins)

/-! ## The sysfs store handlers -/

/-- The kernel's `EINVAL`. -/
def EINVAL : Int := 22

/-- What a store handler works on after `ret = sscanf(buf, "%u", &input)`: `ret` is the
value `sscanf` returned (1 when a number was read), `input` is the content of the local
variable `input` after the call (the number read when `ret = 1`, otherwise whatever the
uninitialised variable holds), and `count` is the length of the write. -/
structure StoreInput where
  ret : Int
  input : Nat
  count : Nat
deriving DecidableEq, Repr

/-- The handler `store_sampling_down_factor`. -/
def store_sampling_down_factor (s : GovState) (i : StoreInput) : GovState × Int :=
  if i.ret ≠ 1 ∨ i.input > 10 ∨ i.input < 1 then (s, -EINVAL)
  else
    ({ s with dbs_tuners_ins := { s.dbs_tuners_ins with sampling_down_factor := i.input } },
      i.count)

/-- The handler `store_sampling_rate`. -/
def store_sampling_rate (s : GovState) (i : StoreInput) : GovState × Int :=
  if i.ret ≠ 1 then (s, -EINVAL)
  else
    ({ s with
        boostpulse_relayf := false
        dbs_tuners_ins := { s.dbs_tuners_ins with sampling_rate := i.input } },
      i.count)

/-- The handler `store_sampling_rate_screen_off`. -/
def store_sampling_rate_screen_off (s : GovState) (i : StoreInput) : GovState × Int :=
  if i.ret ≠ 1 then (s, -EINVAL)
  else
    ({ s with dbs_tuners_ins := { s.dbs_tuners_ins with sampling_rate_screen_off := i.input } },
      i.count)

/-- The handler `store_up_threshold`. -/
def store_up_threshold (s : GovState) (i : StoreInput) : GovState × Int :=
  if i.ret ≠ 1 ∨ i.input > 100 ∨ i.input ≤ s.dbs_tuners_ins.down_threshold then (s, -EINVAL)
  else
    ({ s with dbs_tuners_ins := { s.dbs_tuners_ins with up_threshold := i.input } }, i.count)

/-- The handler `store_up_threshold_hotplug`. -/
def store_up_threshold_hotplug (s : GovState) (i : StoreInput) : GovState × Int :=
  if i.ret ≠ 1 ∨ i.input > 100 ∨ i.input ≤ s.dbs_tuners_ins.down_threshold then (s, -EINVAL)
  else
    ({ s with dbs_tuners_ins := { s.dbs_tuners_ins with up_threshold_hotplug := i.input } },
      i.count)

/-- The handler `store_up_freq_threshold_hotplug`. -/
def store_up_freq_threshold_hotplug (s : GovState) (i : StoreInput) : GovState × Int :=
  if i.ret ≠ 1 ∨ i.input < 100 ∨ i.input ≥ 2100 then (s, -EINVAL)
  else
    ({ s with dbs_tuners_ins :=
        { s.dbs_tuners_ins with up_freq_threshold_hotplug := wrap_u32 (i.input * 1000) } },
      i.count)

/-- The handler `store_down_threshold`. -/
def store_down_threshold (s : GovState) (i : StoreInput) : GovState × Int :=
  if i.ret ≠ 1 ∨ i.input < 11 ∨ i.input > 100 ∨ i.input ≥ s.dbs_tuners_ins.up_threshold then
    (s, -EINVAL)
  else
    ({ s with dbs_tuners_ins := { s.dbs_tuners_ins with down_threshold := i.input } }, i.count)

/-- The handler `store_down_threshold_hotplug`. -/
def store_down_threshold_hotplug (s : GovState) (i : StoreInput) : GovState × Int :=
  if i.ret ≠ 1 ∨ i.input < 11 ∨ i.input > 100 ∨ i.input ≥ s.dbs_tuners_ins.up_threshold then
    (s, -EINVAL)
  else
    ({ s with dbs_tuners_ins := { s.dbs_tuners_ins with down_threshold_hotplug := i.input } },
      i.count)

/-- The handler `store_down_freq_threshold_hotplug`. -/
def store_down_freq_threshold_hotplug (s : GovState) (i : StoreInput) : GovState × Int :=
  if i.ret ≠ 1 ∨ i.input < 100 ∨ i.input ≥ 2100 then (s, -EINVAL)
  else
    ({ s with dbs_tuners_ins :=
        { s.dbs_tuners_ins with down_freq_threshold_hotplug := wrap_u32 (i.input * 1000) } },
      i.count)

/-- The handler `store_block_cycles_online`; it does not look at `ret`, and its test
`input < 0` is on an `unsigned int`. -/
def store_block_cycles_online (s : GovState) (i : StoreInput) : GovState × Int :=
  if i.input < 0 then (s, -EINVAL)
  else
    ({ s with dbs_tuners_ins := { s.dbs_tuners_ins with block_cycles_online := i.input } },
      i.count)

/-- The handler `store_block_cycles_offline`. -/
def store_block_cycles_offline (s : GovState) (i : StoreInput) : GovState × Int :=
  if i.input < 0 then (s, -EINVAL)
  else
    ({ s with dbs_tuners_ins := { s.dbs_tuners_ins with block_cycles_offline := i.input } },
      i.count)

/-- The handler `store_block_cycles_raise`. -/
def store_block_cycles_raise (s : GovState) (i : StoreInput) : GovState × Int :=
  if i.input < 0 then (s, -EINVAL)
  else
    ({ s with dbs_tuners_ins := { s.dbs_tuners_ins with block_cycles_raise := i.input } },
      i.count)

/-- The handler `store_block_cycles_reduce`. -/
def store_block_cycles_reduce (s : GovState) (i : StoreInput) : GovState × Int :=
  if i.input < 0 then (s, -EINVAL)
  else
    ({ s with dbs_tuners_ins := { s.dbs_tuners_ins with block_cycles_reduce := i.input } },
      i.count)

/-- The handler `store_boost_cpu`: `input` becomes 2100000 when `input * 1000` exceeds
2100000, and `input * 1000` is stored. -/
def store_boost_cpu (s : GovState) (i : StoreInput) : GovState × Int :=
  if i.ret ≠ 1 then (s, -EINVAL)
  else
    let input1 := if wrap_u32 (i.input * 1000) > 2100000 then 2100000 else i.input
    let input2 := if wrap_u32 (input1 * 1000) < 0 then 0 else input1
    ({ s with dbs_tuners_ins := { s.dbs_tuners_ins with boost_cpu := wrap_u32 (input2 * 1000) } },
      i.count)

/-- The handler `store_boost_turn_on_2nd_core`; it does not look at `ret`. -/
def store_boost_turn_on_2nd_core (s : GovState) (i : StoreInput) : GovState × Int :=
  let input := if i.input ≠ 0 ∧ i.input ≠ 1 then 0 else i.input
  ({ s with dbs_tuners_ins := { s.dbs_tuners_ins with boost_turn_on_2nd_core := input } },
    i.count)

/-- The handler `store_boost_gpu`; it does not look at `ret`. -/
def store_boost_gpu (s : GovState) (i : StoreInput) : GovState × Int :=
  let input :=
    if i.input ≠ 100 ∧ i.input ≠ 160 ∧ i.input ≠ 266 ∧ i.input ≠ 350 ∧ i.input ≠ 400
        ∧ i.input ≠ 450 ∧ i.input ≠ 533 ∧ i.input ≠ 612 ∧ i.input ≠ 667 ∧ i.input ≠ 720 then 0
    else i.input
  ({ s with dbs_tuners_ins := { s.dbs_tuners_ins with boost_gpu := input } }, i.count)

/-- The handler `store_boost_hold_cycles`; it does not look at `ret`. -/
def store_boost_hold_cycles (s : GovState) (i : StoreInput) : GovState × Int :=
  if i.input < 0 then (s, -EINVAL)
  else
    ({ s with dbs_tuners_ins := { s.dbs_tuners_ins with boost_hold_cycles := i.input } },
      i.count)

/-- The handler `store_disable_hotplugging`; it does not look at `ret`. -/
def store_disable_hotplugging (s : GovState) (i : StoreInput) : GovState × Int :=
  let input := if i.input ≠ 0 ∧ i.input ≠ 1 then 0 else i.input
  ({ s with dbs_tuners_ins := { s.dbs_tuners_ins with disable_hotplugging := input } },
    i.count)

/-- The handler `store_no_2nd_cpu_screen_off`; it does not look at `ret`. -/
def store_no_2nd_cpu_screen_off (s : GovState) (i : StoreInput) : GovState × Int :=
  let input := if i.input ≠ 0 ∧ i.input ≠ 1 then 0 else i.input
  ({ s with dbs_tuners_ins := { s.dbs_tuners_ins with no_2nd_cpu_screen_off := input } },
    i.count)

/-- The handler `store_ignore_nice_load`. When the value changes, the previous samples of
every online CPU are read again from the accounting in `e`; `cpu_online` tells which CPUs
are online. -/
def store_ignore_nice_load (s : GovState) (i : StoreInput) (e : TickEnv)
    (cpu_online : Nat → Bool) : GovState × Int :=
  if i.ret ≠ 1 then (s, -EINVAL)
  else
    let input := if i.input > 1 then 1 else i.input
    if input = s.dbs_tuners_ins.ignore_nice then (s, i.count)
    else
      let tun : dbs_tuners := { s.dbs_tuners_ins with ignore_nice := input }
      ({ s with
          dbs_tuners_ins := tun
          cpus := s.cpus.map (fun j => if cpu_online j.cpu = true then update_sample tun e j else j) },
        i.count)

/-- The handler `store_freq_step_down`. -/
def store_freq_step_down (s : GovState) (i : StoreInput) : GovState × Int :=
  if i.ret ≠ 1 then (s, -EINVAL)
  else
    let input := if i.input > 100 then 100 else i.input
    ({ s with dbs_tuners_ins := { s.dbs_tuners_ins with freq_step_down := input } }, i.count)

/-- The handler `store_freq_step_up`. -/
def store_freq_step_up (s : GovState) (i : StoreInput) : GovState × Int :=
  if i.ret ≠ 1 then (s, -EINVAL)
  else
    let input := if i.input > 100 then 100 else i.input
    ({ s with dbs_tuners_ins := { s.dbs_tuners_ins with freq_step_up := input } }, i.count)

/-- The attributes of `dbs_attributes[]`, one per tunable file. -/
inductive Attr where
  | sampling_rate
  | sampling_rate_screen_off
  | sampling_down_factor
  | up_threshold
  | up_threshold_hotplug
  | down_threshold
  | down_threshold_hotplug
  | boost_cpu
  | boost_turn_on_2nd_core
  | boost_gpu
  | boost_hold_cycles
  | block_cycles_raise
  | block_cycles_reduce
  | block_cycles_online
  | block_cycles_offline
  | disable_hotplugging
  | no_2nd_cpu_screen_off
  | ignore_nice_load
  | freq_step_down
  | freq_step_up
  | up_freq_threshold_hotplug
  | down_freq_threshold_hotplug
deriving DecidableEq, Repr

/-- A write to the file of attribute `a`: the handler `define_one_global_rw` binds to it. -/
def store (a : Attr) (s : GovState) (i : StoreInput) (e : TickEnv) (cpu_online : Nat → Bool) :
    GovState × Int :=
  match a with
  | .sampling_rate => store_sampling_rate s i
  | .sampling_rate_screen_off => store_sampling_rate_screen_off s i
  | .sampling_down_factor => store_sampling_down_factor s i
  | .up_threshold => store_up_threshold s i
  | .up_threshold_hotplug => store_up_threshold_hotplug s i
  | .down_threshold => store_down_threshold s i
  | .down_threshold_hotplug => store_down_threshold_hotplug s i
  | .boost_cpu => store_boost_cpu s i
  | .boost_turn_on_2nd_core => store_boost_turn_on_2nd_core s i
  | .boost_gpu => store_boost_gpu s i
  | .boost_hold_cycles => store_boost_hold_cycles s i
  | .block_cycles_raise => store_block_cycles_raise s i
  | .block_cycles_reduce => store_block_cycles_reduce s i
  | .block_cycles_online => store_block_cycles_online s i
  | .block_cycles_offline => store_block_cycles_offline s i
  | .disable_hotplugging => store_disable_hotplugging s i
  | .no_2nd_cpu_screen_off => store_no_2nd_cpu_screen_off s i
  | .ignore_nice_load => store_ignore_nice_load s i e cpu_online
  | .freq_step_down => store_freq_step_down s i
  | .freq_step_up => store_freq_step_up s i
  | .up_freq_threshold_hotplug => store_up_freq_threshold_hotplug s i
  | .down_freq_threshold_hotplug => store_down_freq_threshold_hotplug s i

/-- The state after a sequence of writes to tunable files. -/
def run_stores (e : TickEnv) (cpu_online : Nat → Bool) (s : GovState) :
    List (Attr × StoreInput) → GovState
  | [] => s
  | w :: ws => run_stores e cpu_online (store w.1 s w.2 e cpu_online).1 ws

/-- The inputs the validating handlers refuse, following the list of tunables: a write
that `sscanf` could not read (`ret ≠ 1`) for every handler that tests `ret`, and a value
outside the documented range for `sampling_down_factor` (1..10), `up_threshold` and
`up_threshold_hotplug` (at most 100 and above `down_threshold`), `down_threshold` and
`down_threshold_hotplug` (11..100 and below `up_threshold`) and the two frequency
thresholds (100 up to, not including, 2100). -/
def rejected_input (a : Attr) (tun : dbs_tuners) (i : StoreInput) : Prop :=
  match a with
  | .sampling_down_factor => i.ret ≠ 1 ∨ i.input < 1 ∨ 10 < i.input
  | .up_threshold => i.ret ≠ 1 ∨ 100 < i.input ∨ i.input ≤ tun.down_threshold
  | .up_threshold_hotplug => i.ret ≠ 1 ∨ 100 < i.input ∨ i.input ≤ tun.down_threshold
  | .down_threshold => i.ret ≠ 1 ∨ i.input < 11 ∨ 100 < i.input ∨ tun.up_threshold ≤ i.input
  | .down_threshold_hotplug =>
    i.ret ≠ 1 ∨ i.input < 11 ∨ 100 < i.input ∨ tun.up_threshold ≤ i.input
  | .up_freq_threshold_hotplug => i.ret ≠ 1 ∨ i.input < 100 ∨ 2100 ≤ i.input
  | .down_freq_threshold_hotplug => i.ret ≠ 1 ∨ i.input < 100 ∨ 2100 ≤ i.input
  | .sampling_rate => i.ret ≠ 1
  | .sampling_rate_screen_off => i.ret ≠ 1
  | .boost_cpu => i.ret ≠ 1
  | .ignore_nice_load => i.ret ≠ 1
  | .freq_step_down => i.ret ≠ 1
  | .freq_step_up => i.ret ≠ 1
  | _ => False

/-- The raise step as the specification words it, in exact arithmetic:
`freq_step_up * policy.max / 100`, replaced by 5 when that quotient is 0. -/
def spec_raise_step (freq_step_up policy_max : Nat) : Nat :=
  if freq_step_up * policy_max / 100 = 0 then 5 else freq_step_up * policy_max / 100

/-! ## Counting the ticks of a run -/

/-- The number of ticks of a run, started in `s` with one environment per tick, whose
domain load exceeds `up_threshold`. -/
def ticks_above_up_threshold (s : GovState) : List TickEnv → Nat
  | [] => 0
  | e :: es =>
    (if max_load s e > s.dbs_tuners_ins.up_threshold then 1 else 0)
      + ticks_above_up_threshold (dbs_check_cpu s e).1 es

/-! ## Concrete inputs used by the worked examples -/

/-- A tick environment in which every CPU reports cumulative idle time `idle` and
cumulative wall time `wall`, with `n` CPUs online. -/
def example_env (pol : cpufreq_policy) (idle wall n : Nat) : TickEnv where
  policy := pol
  get_cpu_idle_time := fun _ => (idle, wall)
  kcpustat_nice := fun _ => 0
  cputime64_to_jiffies64 := fun x => x
  jiffies_to_usecs := fun x => x
  bits_per_long := 32
  num_online_cpus := n

/-- A one-CPU governor state with tunables `tun`, running target `requested`, boost
inactive, the screen on, all counters zero and zeroed previous samples. -/
def example_state (tun : dbs_tuners) (requested : Nat) : GovState where
  dbs_tuners_ins := tun
  stored_sampling_rate := 0
  Lblock_cycles_online := 0
  Lblock_cycles_offline := 0
  Lblock_cycles_raise := 0
  Lblock_cycles_reduce := 0
  boostpulse_relayf := false
  boost_hold_cycles_cnt := 0
  screen_is_on := true
  requested_freq := requested
  down_skip := 0
  cpus := [⟨0, 0, 0, 0⟩]

/-- The default tunables once the governor has started (`sampling_rate = 45000`). -/
def started_tuners : dbs_tuners := { dbs_tuners_default with sampling_rate := 45000 }

/-- The policy of the worked examples: 200 MHz to 1.8 GHz, running at `cur`. -/
def example_policy (cur : Nat) : cpufreq_policy := ⟨200000, 1800000, cur⟩

/-- The tunables of the underflow example: the defaults with `freq_step_down = 100` and
`block_cycles_reduce = 0`, both accepted by their store handlers. -/
def underflow_tuners : dbs_tuners :=
  { started_tuners with freq_step_down := 100, block_cycles_reduce := 0 }

/-! ## Lemmas on the machine arithmetic -/

theorem sub_u32_of_le {a b : Nat} (hb : b ≤ a) (ha : a < 4294967296) : sub_u32 a b = a - b := by
  unfold sub_u32
  omega

theorem s32_to_u32_zero : s32_to_u32 0 = 0 := by decide

theorem s32_to_u32_succ (c : Int) (h1 : -2147483648 ≤ c) (h2 : c < 2147483648) :
    s32_to_u32 (to_s32 (c + 1)) = (s32_to_u32 c + 1) % 4294967296 := by
  unfold s32_to_u32 to_s32
  omega

theorem to_s32_range (x : Int) : -2147483648 ≤ to_s32 x ∧ to_s32 x < 2147483648 := by
  unfold to_s32
  omega

/-! ## Lemmas on the load sampler -/

theorem cpu_load_le_100 (wall idle load : Nat) (h : cpu_load wall idle = some load) :
    load ≤ 100 := by
  unfold cpu_load at h
  split at h
  · cases h
  · rename_i hs
    have hw : 0 < wall := by omega
    have hx : wrap_u32 (100 * (wall - idle)) ≤ 100 * wall := by
      unfold wrap_u32
      have := Nat.mod_le (100 * (wall - idle)) 4294967296
      have : 100 * (wall - idle) ≤ 100 * wall := Nat.mul_le_mul_left 100 (Nat.sub_le wall idle)
      omega
    have hload : load = wrap_u32 (100 * (wall - idle)) / wall := by
      injection h with h
      exact h.symm
    rw [hload]
    calc wrap_u32 (100 * (wall - idle)) / wall ≤ 100 * wall / wall := Nat.div_le_div_right hx
      _ = 100 := Nat.mul_div_cancel 100 hw

theorem load_loop_le_100 (tun : dbs_tuners) (e : TickEnv) (js : List cpu_dbs_info_s) :
    ∀ m : Nat, m ≤ 100 → (load_loop tun e js m).2 ≤ 100 := by
  induction js with
  | nil => intro m hm; simpa [load_loop] using hm
  | cons j js ih =>
    intro m hm
    simp only [load_loop]
    apply ih
    cases hc : cpu_load (wall_time e j) (idle_time tun e j) with
    | none => simpa using hm
    | some load =>
      have := cpu_load_le_100 _ _ _ hc
      simp only
      split <;> omega

theorem max_load_le_100 (s : GovState) (e : TickEnv) : max_load s e ≤ 100 :=
  load_loop_le_100 s.dbs_tuners_ins e s.cpus 0 (by omega)

theorem load_loop_skipped (tun : dbs_tuners) (e : TickEnv) (js : List cpu_dbs_info_s)
    (hskip : ∀ j ∈ js, wall_time e j = 0 ∨ wall_time e j < idle_time tun e j) :
    ∀ m : Nat, (load_loop tun e js m).2 = m := by
  induction js with
  | nil => intro m; simp [load_loop]
  | cons j js ih =>
    intro m
    have hj := hskip j (List.mem_cons_self j js)
    have hc : cpu_load (wall_time e j) (idle_time tun e j) = none := by
      unfold cpu_load
      rw [if_pos hj]
    simp only [load_loop, hc]
    exact ih (fun k hk => hskip k (List.mem_cons_of_mem j hk)) m


/-! ## Lemmas on the decision steps -/

theorem hotplug_online_check_frame (s : GovState) (e : TickEnv) (L : Nat) :
    (hotplug_online_check s e L).1.dbs_tuners_ins = s.dbs_tuners_ins
    ∧ (hotplug_online_check s e L).1.boostpulse_relayf = s.boostpulse_relayf
    ∧ (hotplug_online_check s e L).1.boost_hold_cycles_cnt = s.boost_hold_cycles_cnt
    ∧ (hotplug_online_check s e L).1.requested_freq = s.requested_freq
    ∧ (hotplug_online_check s e L).1.Lblock_cycles_raise = s.Lblock_cycles_raise
    ∧ (hotplug_online_check s e L).1.Lblock_cycles_reduce = s.Lblock_cycles_reduce := by
  simp only [hotplug_online_check]
  split_ifs <;> simp

theorem hotplug_offline_check_frame (s : GovState) (e : TickEnv) (L : Nat) :
    (hotplug_offline_check s e L).1.dbs_tuners_ins = s.dbs_tuners_ins
    ∧ (hotplug_offline_check s e L).1.boostpulse_relayf = s.boostpulse_relayf
    ∧ (hotplug_offline_check s e L).1.boost_hold_cycles_cnt = s.boost_hold_cycles_cnt
    ∧ (hotplug_offline_check s e L).1.requested_freq = s.requested_freq
    ∧ (hotplug_offline_check s e L).1.Lblock_cycles_raise = s.Lblock_cycles_raise
    ∧ (hotplug_offline_check s e L).1.Lblock_cycles_reduce = s.Lblock_cycles_reduce := by
  simp only [hotplug_offline_check]
  split_ifs <;> simp

theorem freq_raise_frame (s : GovState) (e : TickEnv) :
    (freq_raise s e).1.dbs_tuners_ins = s.dbs_tuners_ins
    ∧ (freq_raise s e).1.boostpulse_relayf = s.boostpulse_relayf
    ∧ (freq_raise s e).1.boost_hold_cycles_cnt = s.boost_hold_cycles_cnt
    ∧ (freq_raise s e).1.Lblock_cycles_online = s.Lblock_cycles_online
    ∧ (freq_raise s e).1.Lblock_cycles_offline = s.Lblock_cycles_offline := by
  simp only [freq_raise]
  split_ifs <;> simp

theorem freq_reduce_frame (s : GovState) (e : TickEnv) :
    (freq_reduce s e).1.dbs_tuners_ins = s.dbs_tuners_ins
    ∧ (freq_reduce s e).1.boostpulse_relayf = s.boostpulse_relayf
    ∧ (freq_reduce s e).1.boost_hold_cycles_cnt = s.boost_hold_cycles_cnt
    ∧ (freq_reduce s e).1.Lblock_cycles_online = s.Lblock_cycles_online
    ∧ (freq_reduce s e).1.Lblock_cycles_offline = s.Lblock_cycles_offline := by
  simp only [freq_reduce]
  split_ifs <;> simp

theorem hysteresis_frame (s : GovState) (e : TickEnv) (L : Nat) :
    (hysteresis s e L).1.dbs_tuners_ins = s.dbs_tuners_ins
    ∧ (hysteresis s e L).1.boostpulse_relayf = s.boostpulse_relayf
    ∧ (hysteresis s e L).1.boost_hold_cycles_cnt = s.boost_hold_cycles_cnt := by
  have h1 := hotplug_online_check_frame s e L
  have h2 := freq_raise_frame (hotplug_online_check s e L).1 e
  have h3 := hotplug_offline_check_frame (hotplug_online_check s e L).1 e L
  have h4 := freq_reduce_frame (hotplug_offline_check (hotplug_online_check s e L).1 e L).1 e
  simp only [hysteresis]
  split_ifs <;> simp_all

theorem hotplug_online_check_calls (s : GovState) (e : TickEnv) (L : Nat) :
    (∀ c ∈ (hotplug_online_check s e L).2, c = Call.schedule_hotplug_online_work)
    ∧ ((hotplug_online_check s e L).2 ≠ [] →
        (hotplug_online_check s e L).1.Lblock_cycles_online = 0
        ∧ (hotplug_online_check s e L).1.Lblock_cycles_offline = 0
        ∧ e.num_online_cpus < 2) := by
  simp only [hotplug_online_check]
  split_ifs with h1 h2 h3 <;> simp
  exact h2.1

theorem hotplug_online_check_idle (s : GovState) (e : TickEnv) (L : Nat)
    (h : ¬ (L > s.dbs_tuners_ins.up_threshold_hotplug
        ∧ e.policy.cur > s.dbs_tuners_ins.up_freq_threshold_hotplug
        ∧ e.num_online_cpus < 2 ∧ e.policy.cur ≠ e.policy.min)) :
    hotplug_online_check s e L = (s, []) := by
  simp only [hotplug_online_check]
  split_ifs with h1 h2 h3
  · exact absurd ⟨h1.1, h1.2, h2.1, h2.2⟩ h
  · exact absurd ⟨h1.1, h1.2, h2.1, h2.2⟩ h
  · rfl
  · rfl

theorem hotplug_offline_check_calls (s : GovState) (e : TickEnv) (L : Nat) :
    (∀ c ∈ (hotplug_offline_check s e L).2, c = Call.schedule_hotplug_offline_work)
    ∧ ((hotplug_offline_check s e L).2 ≠ [] →
        (hotplug_offline_check s e L).1.Lblock_cycles_online = 0
        ∧ (hotplug_offline_check s e L).1.Lblock_cycles_offline = 0) := by
  simp only [hotplug_offline_check]
  split_ifs with h1 h2 h3 <;> simp

theorem hotplug_offline_check_idle (s : GovState) (e : TickEnv) (L : Nat)
    (h : ¬ (L < s.dbs_tuners_ins.down_threshold_hotplug
        ∧ s.dbs_tuners_ins.disable_hotplugging = 0
        ∧ e.policy.cur < s.dbs_tuners_ins.down_freq_threshold_hotplug
        ∧ e.num_online_cpus > 1)) :
    hotplug_offline_check s e L = (s, []) := by
  simp only [hotplug_offline_check]
  split_ifs with h1 h2 h3
  · exact absurd ⟨h1.1, h1.2.1, h1.2.2, h2⟩ h
  · exact absurd ⟨h1.1, h1.2.1, h1.2.2, h2⟩ h
  · rfl
  · rfl

theorem freq_raise_calls (s : GovState) (e : TickEnv) :
    (∀ c ∈ (freq_raise s e).2, ∃ f, c = Call.cpufreq_driver_target f Relation.CPUFREQ_RELATION_H)
    ∧ ((freq_raise s e).2 ≠ [] →
        (freq_raise s e).1.Lblock_cycles_raise = 0 ∧ (freq_raise s e).1.Lblock_cycles_reduce = 0) := by
  simp only [freq_raise]
  split_ifs <;> simp

theorem freq_reduce_calls (s : GovState) (e : TickEnv) :
    (∀ c ∈ (freq_reduce s e).2, ∃ f, c = Call.cpufreq_driver_target f Relation.CPUFREQ_RELATION_H)
    ∧ ((freq_reduce s e).2 ≠ [] →
        (freq_reduce s e).1.Lblock_cycles_raise = 0 ∧ (freq_reduce s e).1.Lblock_cycles_reduce = 0) := by
  simp only [freq_reduce]
  split_ifs <;> simp

theorem hysteresis_disabled (s : GovState) (e : TickEnv) (L : Nat)
    (h : s.dbs_tuners_ins.freq_step_up = 0 ∨ s.dbs_tuners_ins.freq_step_down = 0) :
    hysteresis s e L = (s, []) := by
  simp only [hysteresis, if_pos h]

theorem hysteresis_raise (s : GovState) (e : TickEnv) (L : Nat)
    (h : ¬ (s.dbs_tuners_ins.freq_step_up = 0 ∨ s.dbs_tuners_ins.freq_step_down = 0))
    (hL : L > s.dbs_tuners_ins.up_threshold) :
    hysteresis s e L =
      ((freq_raise (hotplug_online_check s e L).1 e).1,
        (hotplug_online_check s e L).2 ++ (freq_raise (hotplug_online_check s e L).1 e).2) := by
  simp only [hysteresis, if_neg h, if_pos hL]

theorem hysteresis_reduce (s : GovState) (e : TickEnv) (L : Nat)
    (h : ¬ (s.dbs_tuners_ins.freq_step_up = 0 ∨ s.dbs_tuners_ins.freq_step_down = 0))
    (hL : ¬ L > s.dbs_tuners_ins.up_threshold)
    (hd : L < sub_u32 s.dbs_tuners_ins.down_threshold 10) :
    hysteresis s e L =
      ((freq_reduce (hotplug_offline_check (hotplug_online_check s e L).1 e L).1 e).1,
        (hotplug_online_check s e L).2
          ++ (hotplug_offline_check (hotplug_online_check s e L).1 e L).2
          ++ (freq_reduce (hotplug_offline_check (hotplug_online_check s e L).1 e L).1 e).2) := by
  simp only [hysteresis, if_neg h, if_neg hL, if_pos hd]

theorem hysteresis_hold (s : GovState) (e : TickEnv) (L : Nat)
    (h : ¬ (s.dbs_tuners_ins.freq_step_up = 0 ∨ s.dbs_tuners_ins.freq_step_down = 0))
    (hL : ¬ L > s.dbs_tuners_ins.up_threshold)
    (hd : ¬ L < sub_u32 s.dbs_tuners_ins.down_threshold 10) :
    hysteresis s e L =
      ((hotplug_offline_check (hotplug_online_check s e L).1 e L).1,
        (hotplug_online_check s e L).2
          ++ (hotplug_offline_check (hotplug_online_check s e L).1 e L).2) := by
  simp only [hysteresis, if_neg h, if_neg hL, if_neg hd]

theorem dbs_check_cpu_normal (s : GovState) (e : TickEnv) (hb : s.boostpulse_relayf = false) :
    dbs_check_cpu s e =
      hysteresis { s with cpus := (load_loop s.dbs_tuners_ins e s.cpus 0).1 } e (max_load s e) := by
  simp [dbs_check_cpu, hb]

theorem dbs_check_cpu_boost (s : GovState) (e : TickEnv) (hb : s.boostpulse_relayf = true) :
    dbs_check_cpu s e = boost_tick s e := by
  simp [dbs_check_cpu, hb]

theorem boost_tick_calls (s : GovState) (e : TickEnv) :
    ∀ c ∈ (boost_tick s e).2, ∃ f, c = Call.cpufreq_driver_target f Relation.CPUFREQ_RELATION_H := by
  simp only [boost_tick]
  split_ifs <;> simp

theorem hysteresis_freq_reset (s : GovState) (e : TickEnv) (L : Nat) (f : Nat) (rel : Relation)
    (hmem : Call.cpufreq_driver_target f rel ∈ (hysteresis s e L).2) :
    (hysteresis s e L).1.Lblock_cycles_raise = 0 ∧ (hysteresis s e L).1.Lblock_cycles_reduce = 0 := by
  have hon := (hotplug_online_check_calls s e L).1
  by_cases h0 : s.dbs_tuners_ins.freq_step_up = 0 ∨ s.dbs_tuners_ins.freq_step_down = 0
  · rw [hysteresis_disabled s e L h0] at hmem
    simp at hmem
  by_cases hL : L > s.dbs_tuners_ins.up_threshold
  · rw [hysteresis_raise s e L h0 hL] at hmem ⊢
    rcases List.mem_append.1 hmem with h | h
    · cases hon _ h
    · exact (freq_raise_calls _ e).2 (List.ne_nil_of_mem h)
  have hoff := (hotplug_offline_check_calls (hotplug_online_check s e L).1 e L).1
  by_cases hd : L < sub_u32 s.dbs_tuners_ins.down_threshold 10
  · rw [hysteresis_reduce s e L h0 hL hd] at hmem ⊢
    rcases List.mem_append.1 hmem with h | h
    · rcases List.mem_append.1 h with h | h
      · cases hon _ h
      · cases hoff _ h
    · exact (freq_reduce_calls _ e).2 (List.ne_nil_of_mem h)
  · rw [hysteresis_hold s e L h0 hL hd] at hmem
    rcases List.mem_append.1 hmem with h | h
    · cases hon _ h
    · cases hoff _ h

theorem hysteresis_hotplug_reset (s : GovState) (e : TickEnv) (L : Nat)
    (hmem : Call.schedule_hotplug_online_work ∈ (hysteresis s e L).2
      ∨ Call.schedule_hotplug_offline_work ∈ (hysteresis s e L).2) :
    (hysteresis s e L).1.Lblock_cycles_online = 0 ∧ (hysteresis s e L).1.Lblock_cycles_offline = 0 := by
  have hon := hotplug_online_check_calls s e L
  have hraise := freq_raise_calls (hotplug_online_check s e L).1 e
  have hraisef := freq_raise_frame (hotplug_online_check s e L).1 e
  have hoff := hotplug_offline_check_calls (hotplug_online_check s e L).1 e L
  have hred := freq_reduce_calls (hotplug_offline_check (hotplug_online_check s e L).1 e L).1 e
  have hredf := freq_reduce_frame (hotplug_offline_check (hotplug_online_check s e L).1 e L).1 e
  -- an online request leaves the offline check idle
  have hkeep : (hotplug_online_check s e L).2 ≠ [] →
      (hotplug_offline_check (hotplug_online_check s e L).1 e L).1.Lblock_cycles_online = 0
      ∧ (hotplug_offline_check (hotplug_online_check s e L).1 e L).1.Lblock_cycles_offline = 0 := by
    intro hne
    obtain ⟨h1, h2, h3⟩ := hon.2 hne
    rw [hotplug_offline_check_idle _ e L (by omega)]
    exact ⟨h1, h2⟩
  by_cases h0 : s.dbs_tuners_ins.freq_step_up = 0 ∨ s.dbs_tuners_ins.freq_step_down = 0
  · rw [hysteresis_disabled s e L h0] at hmem
    simp at hmem
  by_cases hL : L > s.dbs_tuners_ins.up_threshold
  · rw [hysteresis_raise s e L h0 hL] at hmem ⊢
    simp only [List.mem_append] at hmem
    rw [hraisef.2.2.2.1, hraisef.2.2.2.2]
    rcases hmem with (h | h) | (h | h)
    · exact ⟨(hon.2 (List.ne_nil_of_mem h)).1, (hon.2 (List.ne_nil_of_mem h)).2.1⟩
    · obtain ⟨f, hf⟩ := hraise.1 _ h
      cases hf
    · cases hon.1 _ h
    · obtain ⟨f, hf⟩ := hraise.1 _ h
      cases hf
  by_cases hd : L < sub_u32 s.dbs_tuners_ins.down_threshold 10
  · rw [hysteresis_reduce s e L h0 hL hd] at hmem ⊢
    simp only [List.mem_append] at hmem
    rw [hredf.2.2.2.1, hredf.2.2.2.2]
    rcases hmem with ((h | h) | h) | ((h | h) | h)
    · exact hkeep (List.ne_nil_of_mem h)
    · cases hoff.1 _ h
    · obtain ⟨f, hf⟩ := hred.1 _ h
      cases hf
    · cases hon.1 _ h
    · exact hoff.2 (List.ne_nil_of_mem h)
    · obtain ⟨f, hf⟩ := hred.1 _ h
      cases hf
  · rw [hysteresis_hold s e L h0 hL hd] at hmem ⊢
    simp only [List.mem_append] at hmem
    rcases hmem with (h | h) | (h | h)
    · exact hkeep (List.ne_nil_of_mem h)
    · cases hoff.1 _ h
    · cases hon.1 _ h
    · exact hoff.2 (List.ne_nil_of_mem h)

/-! ## Lemmas on the boost window -/

theorem boost_tick_tuners (s : GovState) (e : TickEnv) :
    (boost_tick s e).1.dbs_tuners_ins = s.dbs_tuners_ins := by
  simp only [boost_tick]
  split_ifs <;> simp

theorem boost_tick_continue (s : GovState) (e : TickEnv)
    (hr : -2147483648 ≤ s.boost_hold_cycles_cnt ∧ s.boost_hold_cycles_cnt < 2147483648)
    (hlt : s32_to_u32 s.boost_hold_cycles_cnt < s.dbs_tuners_ins.boost_hold_cycles)
    (hH : s.dbs_tuners_ins.boost_hold_cycles < 4294967296) :
    (boost_tick s e).1.boostpulse_relayf = s.boostpulse_relayf
    ∧ s32_to_u32 (boost_tick s e).1.boost_hold_cycles_cnt = s32_to_u32 s.boost_hold_cycles_cnt + 1
    ∧ (-2147483648 ≤ (boost_tick s e).1.boost_hold_cycles_cnt
        ∧ (boost_tick s e).1.boost_hold_cycles_cnt < 2147483648) := by
  have hsucc := s32_to_u32_succ s.boost_hold_cycles_cnt hr.1 hr.2
  have hrange := to_s32_range (s.boost_hold_cycles_cnt + 1)
  have hmod : (s32_to_u32 s.boost_hold_cycles_cnt + 1) % 4294967296
      = s32_to_u32 s.boost_hold_cycles_cnt + 1 := Nat.mod_eq_of_lt (by omega)
  have hge : ¬ s32_to_u32 s.boost_hold_cycles_cnt ≥ s.dbs_tuners_ins.boost_hold_cycles := by omega
  simp only [boost_tick, if_neg hge]
  split_ifs <;> simp [hsucc, hmod, hrange]

theorem boost_tick_expire (s : GovState) (e : TickEnv)
    (hge : s32_to_u32 s.boost_hold_cycles_cnt ≥ s.dbs_tuners_ins.boost_hold_cycles) :
    (boost_tick s e).1.boostpulse_relayf = false := by
  simp only [boost_tick, if_pos hge]
  split_ifs <;> simp

theorem run_ticks_boost_active (H : Nat) (hH : H < 4294967296) :
    ∀ (es : List TickEnv) (s : GovState),
      s.boostpulse_relayf = true → s.dbs_tuners_ins.boost_hold_cycles = H →
      (-2147483648 ≤ s.boost_hold_cycles_cnt ∧ s.boost_hold_cycles_cnt < 2147483648) →
      s32_to_u32 s.boost_hold_cycles_cnt + es.length ≤ H →
      (run_ticks s es).boostpulse_relayf = true
      ∧ (run_ticks s es).dbs_tuners_ins.boost_hold_cycles = H
      ∧ (-2147483648 ≤ (run_ticks s es).boost_hold_cycles_cnt
          ∧ (run_ticks s es).boost_hold_cycles_cnt < 2147483648)
      ∧ s32_to_u32 (run_ticks s es).boost_hold_cycles_cnt
          = s32_to_u32 s.boost_hold_cycles_cnt + es.length := by
  intro es
  induction es with
  | nil => intro s hb hh hr _; exact ⟨hb, hh, hr, by simp [run_ticks]⟩
  | cons e es ih =>
    intro s hb hh hr hlen
    simp only [List.length_cons] at hlen
    have hstep := boost_tick_continue s e hr (by omega) (by omega)
    have htun := boost_tick_tuners s e
    simp only [run_ticks, dbs_check_cpu_boost s e hb]
    have := ih (boost_tick s e).1 (by rw [hstep.1, hb]) (by rw [htun, hh]) hstep.2.2 (by omega)
    refine ⟨this.1, this.2.1, this.2.2.1, ?_⟩
    rw [this.2.2.2, hstep.2.1, List.length_cons]
    omega

theorem run_ticks_boost_expired (H : Nat) (hH : H < 4294967296) :
    ∀ (es : List TickEnv) (s : GovState),
      s.boostpulse_relayf = true → s.dbs_tuners_ins.boost_hold_cycles = H →
      (-2147483648 ≤ s.boost_hold_cycles_cnt ∧ s.boost_hold_cycles_cnt < 2147483648) →
      s32_to_u32 s.boost_hold_cycles_cnt ≤ H →
      s32_to_u32 s.boost_hold_cycles_cnt + es.length = H + 1 →
      (run_ticks s es).boostpulse_relayf = false := by
  intro es
  induction es with
  | nil =>
    intro s hb hh hr hle hlen
    simp only [List.length_nil] at hlen
    omega
  | cons e es ih =>
    intro s hb hh hr hle hlen
    simp only [List.length_cons] at hlen
    simp only [run_ticks, dbs_check_cpu_boost s e hb]
    by_cases hk : s32_to_u32 s.boost_hold_cycles_cnt = H
    · have hes : es = [] := List.eq_nil_of_length_eq_zero (by omega)
      subst hes
      simp only [run_ticks]
      exact boost_tick_expire s e (by omega)
    · have hstep := boost_tick_continue s e hr (by omega) (by omega)
      have htun := boost_tick_tuners s e
      exact ih (boost_tick s e).1 (by rw [hstep.1, hb]) (by rw [htun, hh]) hstep.2.2
        (by omega) (by omega)

theorem boostpulse_relay_kt_state (s : GovState) (n : Nat)
    (hact : (boostpulse_relay_kt s n).1.boostpulse_relayf = true) :
    (boostpulse_relay_kt s n).1.boost_hold_cycles_cnt = 0
    ∧ (boostpulse_relay_kt s n).1.dbs_tuners_ins = s.dbs_tuners_ins := by
  revert hact
  simp only [boostpulse_relay_kt]
  split_ifs with h1 h2 h3 <;> simp
  intro h
  rw [h] at h1
  cases h1

theorem boostpulse_relay_kt_active (s : GovState) (n : Nat) (hb : s.boostpulse_relayf = true) :
    (boostpulse_relay_kt s n).1.boostpulse_relayf = true := by
  simp [boostpulse_relay_kt, hb]

theorem boost_window (s : GovState) (hb : s.boostpulse_relayf = true)
    (hc : s.boost_hold_cycles_cnt = 0) (hH : s.dbs_tuners_ins.boost_hold_cycles < 4294967296) :
    (∀ es : List TickEnv, es.length ≤ s.dbs_tuners_ins.boost_hold_cycles →
        (run_ticks s es).boostpulse_relayf = true)
    ∧ (∀ es : List TickEnv, es.length = s.dbs_tuners_ins.boost_hold_cycles + 1 →
        (run_ticks s es).boostpulse_relayf = false) := by
  have hr : -2147483648 ≤ s.boost_hold_cycles_cnt ∧ s.boost_hold_cycles_cnt < 2147483648 := by
    rw [hc]; omega
  have h0 : s32_to_u32 s.boost_hold_cycles_cnt = 0 := by rw [hc]; exact s32_to_u32_zero
  constructor
  · intro es hlen
    exact (run_ticks_boost_active _ hH es s hb rfl hr (by omega)).1
  · intro es hlen
    exact run_ticks_boost_expired _ hH es s hb rfl hr (by omega) (by omega)

/-! ## The claims -/

/-- C1 (the code departs from the claim): a hysteresis tick does not always keep
`requested_freq` inside `[policy.min, policy.max]`. With `policy.min = 200000`,
`policy.max = 1800000`, `policy.cur = 1000000`, `requested_freq = 1000000` (in bounds),
`freq_step_down = 100`, `block_cycles_reduce = 0` and a fully idle CPU (load 0), the
reduce step subtracts `1800000` from `1000000` in `unsigned int`; the result
`4294167296` is not below `policy.min`, so it is kept, and it exceeds `policy.max`. -/
theorem C1_reduce_underflow :
    (example_state underflow_tuners 1000000).boostpulse_relayf = false
    ∧ (example_policy 1000000).min ≤ (example_state underflow_tuners 1000000).requested_freq
    ∧ (example_state underflow_tuners 1000000).requested_freq ≤ (example_policy 1000000).max
    ∧ underflow_tuners.freq_step_up ≤ 100 ∧ underflow_tuners.freq_step_down ≤ 100
    ∧ max_load (example_state underflow_tuners 1000000)
        (example_env (example_policy 1000000) 100 100 1) = 0
    ∧ (dbs_check_cpu (example_state underflow_tuners 1000000)
        (example_env (example_policy 1000000) 100 100 1)).2
        = [Call.cpufreq_driver_target 4294167296 Relation.CPUFREQ_RELATION_H]
    ∧ (dbs_check_cpu (example_state underflow_tuners 1000000)
        (example_env (example_policy 1000000) 100 100 1)).1.requested_freq = 4294167296
    ∧ ¬ (dbs_check_cpu (example_state underflow_tuners 1000000)
        (example_env (example_policy 1000000) 100 100 1)).1.requested_freq
          ≤ (example_policy 1000000).max := by
  decide

/-- C2: once `boostpulse_relay_kt` has left the boost active, with
`H = boost_hold_cycles` and no trigger or configuration write in between, each of the
next `H + 1` calls of `dbs_check_cpu` finds `boostpulse_relayf` set and so runs the boost
branch, and call number `H + 2` finds it clear and runs the hysteresis path. -/
theorem C2_boost_lasts_hold_cycles_plus_one (s0 : GovState) (n : Nat)
    (hact : (boostpulse_relay_kt s0 n).1.boostpulse_relayf = true)
    (hH : s0.dbs_tuners_ins.boost_hold_cycles < 4294967296) :
    (∀ (es : List TickEnv) (e : TickEnv), es.length ≤ s0.dbs_tuners_ins.boost_hold_cycles →
      (run_ticks (boostpulse_relay_kt s0 n).1 es).boostpulse_relayf = true
      ∧ dbs_check_cpu (run_ticks (boostpulse_relay_kt s0 n).1 es) e
          = boost_tick (run_ticks (boostpulse_relay_kt s0 n).1 es) e)
    ∧ (∀ (es : List TickEnv) (e : TickEnv),
      es.length = s0.dbs_tuners_ins.boost_hold_cycles + 1 →
      (run_ticks (boostpulse_relay_kt s0 n).1 es).boostpulse_relayf = false
      ∧ dbs_check_cpu (run_ticks (boostpulse_relay_kt s0 n).1 es) e
          = hysteresis
              { run_ticks (boostpulse_relay_kt s0 n).1 es with
                cpus := (load_loop (run_ticks (boostpulse_relay_kt s0 n).1 es).dbs_tuners_ins e
                  (run_ticks (boostpulse_relay_kt s0 n).1 es).cpus 0).1 }
              e (max_load (run_ticks (boostpulse_relay_kt s0 n).1 es) e)) := by
  have hst := boostpulse_relay_kt_state s0 n hact
  have hw := boost_window (boostpulse_relay_kt s0 n).1 hact hst.1 (by rw [hst.2]; exact hH)
  rw [hst.2] at hw
  constructor
  · intro es e hlen
    exact ⟨hw.1 es hlen, dbs_check_cpu_boost _ e (hw.1 es hlen)⟩
  · intro es e hlen
    exact ⟨hw.2 es hlen, dbs_check_cpu_normal _ e (hw.2 es hlen)⟩

/-- Witness for C2 with `boost_hold_cycles = 2`: the boost is still set after two ticks
and clear after three. -/
theorem C2_boost_lasts_hold_cycles_plus_one_witness :
    (run_ticks (boostpulse_relay_kt
        (example_state { started_tuners with boost_hold_cycles := 2 } 1000000) 1).1
      [example_env (example_policy 1000000) 40 100 1,
        example_env (example_policy 1000000) 80 200 1]).boostpulse_relayf = true
    ∧ (run_ticks (boostpulse_relay_kt
        (example_state { started_tuners with boost_hold_cycles := 2 } 1000000) 1).1
      [example_env (example_policy 1000000) 40 100 1,
        example_env (example_policy 1000000) 80 200 1,
        example_env (example_policy 1000000) 120 300 1]).boostpulse_relayf = false :=
  ⟨((C2_boost_lasts_hold_cycles_plus_one
        (example_state { started_tuners with boost_hold_cycles := 2 } 1000000) 1
        (by decide) (by decide)).1 _ (example_env (example_policy 1000000) 0 0 1)
        (by decide)).1,
    ((C2_boost_lasts_hold_cycles_plus_one
        (example_state { started_tuners with boost_hold_cycles := 2 } 1000000) 1
        (by decide) (by decide)).2 _ (example_env (example_policy 1000000) 0 0 1)
        (by decide)).1⟩

/-- C3: if the boost was triggered, `k ≤ H = boost_hold_cycles` ticks have run and
`boostpulse_relay_kt` is called again, then the boost was still active, the call leaves
`boostpulse_relayf` set and `boost_hold_cycles_cnt` at 0, and, whatever `k` was, each of
the next `H + 1` calls of `dbs_check_cpu` finds the flag set while call number `H + 2`
finds it clear. -/
theorem C3_retrigger_restarts_window (s0 : GovState) (n n2 : Nat) (es1 : List TickEnv)
    (hact : (boostpulse_relay_kt s0 n).1.boostpulse_relayf = true)
    (hH : s0.dbs_tuners_ins.boost_hold_cycles < 4294967296)
    (hk : es1.length ≤ s0.dbs_tuners_ins.boost_hold_cycles) :
    (run_ticks (boostpulse_relay_kt s0 n).1 es1).boostpulse_relayf = true
    ∧ (boostpulse_relay_kt (run_ticks (boostpulse_relay_kt s0 n).1 es1) n2).1.boostpulse_relayf
        = true
    ∧ (boostpulse_relay_kt (run_ticks (boostpulse_relay_kt s0 n).1 es1) n2).1.boost_hold_cycles_cnt
        = 0
    ∧ (∀ es : List TickEnv, es.length ≤ s0.dbs_tuners_ins.boost_hold_cycles →
        (run_ticks (boostpulse_relay_kt (run_ticks (boostpulse_relay_kt s0 n).1 es1) n2).1
          es).boostpulse_relayf = true)
    ∧ (∀ es : List TickEnv, es.length = s0.dbs_tuners_ins.boost_hold_cycles + 1 →
        (run_ticks (boostpulse_relay_kt (run_ticks (boostpulse_relay_kt s0 n).1 es1) n2).1
          es).boostpulse_relayf = false) := by
  have hst := boostpulse_relay_kt_state s0 n hact
  have hr : -2147483648 ≤ (boostpulse_relay_kt s0 n).1.boost_hold_cycles_cnt
      ∧ (boostpulse_relay_kt s0 n).1.boost_hold_cycles_cnt < 2147483648 := by
    rw [hst.1]; omega
  have h0 : s32_to_u32 (boostpulse_relay_kt s0 n).1.boost_hold_cycles_cnt = 0 := by
    rw [hst.1]; exact s32_to_u32_zero
  have hrun := run_ticks_boost_active _ hH es1 (boostpulse_relay_kt s0 n).1 hact
    (by rw [hst.2]) hr (by omega)
  have hact2 := boostpulse_relay_kt_active _ n2 hrun.1
  have hst2 := boostpulse_relay_kt_state _ n2 hact2
  have hw := boost_window _ hact2 hst2.1 (by rw [hst2.2, hrun.2.1]; exact hH)
  rw [hst2.2, hrun.2.1] at hw
  exact ⟨hrun.1, hact2, hst2.1, hw.1, hw.2⟩

/-- Witness for C3 with `boost_hold_cycles = 2`: one boost tick, a second trigger, and
then the flag is still set after two more ticks and clear after three. -/
theorem C3_retrigger_restarts_window_witness :
    (run_ticks (boostpulse_relay_kt (run_ticks (boostpulse_relay_kt
        (example_state { started_tuners with boost_hold_cycles := 2 } 1000000) 1).1
        [example_env (example_policy 1000000) 40 100 1]) 2).1
      [example_env (example_policy 1000000) 80 200 2,
        example_env (example_policy 1000000) 120 300 2]).boostpulse_relayf = true
    ∧ (run_ticks (boostpulse_relay_kt (run_ticks (boostpulse_relay_kt
        (example_state { started_tuners with boost_hold_cycles := 2 } 1000000) 1).1
        [example_env (example_policy 1000000) 40 100 1]) 2).1
      [example_env (example_policy 1000000) 80 200 2,
        example_env (example_policy 1000000) 120 300 2,
        example_env (example_policy 1000000) 160 400 2]).boostpulse_relayf = false :=
  ⟨(C3_retrigger_restarts_window
        (example_state { started_tuners with boost_hold_cycles := 2 } 1000000) 1 2
        [example_env (example_policy 1000000) 40 100 1]
        (by decide) (by decide) (by decide)).2.2.2.1 _ (by decide),
    (C3_retrigger_restarts_window
        (example_state { started_tuners with boost_hold_cycles := 2 } 1000000) 1 2
        [example_env (example_policy 1000000) 40 100 1]
        (by decide) (by decide) (by decide)).2.2.2.2 _ (by decide)⟩

/-- C4, as stated, fails: with `up_threshold_hotplug = 53` (accepted by its store handler,
being above `down_threshold = 52`), one CPU online, `policy.cur = 1300000` and domain load
55, which lies between `down_threshold = 52` and `up_threshold = 57`, the tick increments
`Lblock_cycles_online`. -/
theorem C4_counterexample :
    (example_state { started_tuners with up_threshold_hotplug := 53 } 1300000).boostpulse_relayf
      = false
    ∧ max_load (example_state { started_tuners with up_threshold_hotplug := 53 } 1300000)
        (example_env (example_policy 1300000) 45 100 1) = 55
    ∧ started_tuners.down_threshold ≤ 55 ∧ 55 ≤ started_tuners.up_threshold
    ∧ (example_state { started_tuners with up_threshold_hotplug := 53 } 1300000).Lblock_cycles_online
      = 0
    ∧ (dbs_check_cpu (example_state { started_tuners with up_threshold_hotplug := 53 } 1300000)
        (example_env (example_policy 1300000) 45 100 1)).1.Lblock_cycles_online = 1 := by
  decide

/-- C4, amended: with boost inactive, `down_threshold ≥ 10` and a domain load `L` with
`down_threshold ≤ L ≤ up_threshold`, a tick emits no `__cpufreq_driver_target` call and
leaves `requested_freq` and the raise and reduce counters unchanged; if moreover the tick
qualifies for neither hotplug gate, it emits nothing at all and leaves the online and
offline counters unchanged too. -/
theorem C4_band_tick (s : GovState) (e : TickEnv)
    (hb : s.boostpulse_relayf = false)
    (hd : s.dbs_tuners_ins.down_threshold ≤ max_load s e)
    (hu : max_load s e ≤ s.dbs_tuners_ins.up_threshold)
    (h10 : 10 ≤ s.dbs_tuners_ins.down_threshold) :
    ((∀ f rel, Call.cpufreq_driver_target f rel ∉ (dbs_check_cpu s e).2)
      ∧ (dbs_check_cpu s e).1.requested_freq = s.requested_freq
      ∧ (dbs_check_cpu s e).1.Lblock_cycles_raise = s.Lblock_cycles_raise
      ∧ (dbs_check_cpu s e).1.Lblock_cycles_reduce = s.Lblock_cycles_reduce)
    ∧ (¬ (max_load s e > s.dbs_tuners_ins.up_threshold_hotplug
          ∧ e.policy.cur > s.dbs_tuners_ins.up_freq_threshold_hotplug
          ∧ e.num_online_cpus < 2 ∧ e.policy.cur ≠ e.policy.min) →
       ¬ (max_load s e < s.dbs_tuners_ins.down_threshold_hotplug
          ∧ s.dbs_tuners_ins.disable_hotplugging = 0
          ∧ e.policy.cur < s.dbs_tuners_ins.down_freq_threshold_hotplug
          ∧ e.num_online_cpus > 1) →
       (dbs_check_cpu s e).2 = []
       ∧ (dbs_check_cpu s e).1.Lblock_cycles_online = s.Lblock_cycles_online
       ∧ (dbs_check_cpu s e).1.Lblock_cycles_offline = s.Lblock_cycles_offline) := by
  rw [dbs_check_cpu_normal s e hb]
  have h100 := max_load_le_100 s e
  generalize hs1 : ({ s with cpus := (load_loop s.dbs_tuners_ins e s.cpus 0).1 } : GovState) = s1
  have ht : s1.dbs_tuners_ins = s.dbs_tuners_ins := by rw [← hs1]
  have hq : s1.requested_freq = s.requested_freq := by rw [← hs1]
  have hra : s1.Lblock_cycles_raise = s.Lblock_cycles_raise := by rw [← hs1]
  have hre : s1.Lblock_cycles_reduce = s.Lblock_cycles_reduce := by rw [← hs1]
  have hon : s1.Lblock_cycles_online = s.Lblock_cycles_online := by rw [← hs1]
  have hof : s1.Lblock_cycles_offline = s.Lblock_cycles_offline := by rw [← hs1]
  rw [← ht] at hd hu h10 ⊢
  rw [← hq, ← hra, ← hre, ← hon, ← hof]
  by_cases h0 : s1.dbs_tuners_ins.freq_step_up = 0 ∨ s1.dbs_tuners_ins.freq_step_down = 0
  · rw [hysteresis_disabled s1 e _ h0]
    simp
  have hL : ¬ max_load s e > s1.dbs_tuners_ins.up_threshold := by omega
  have hsub : ¬ max_load s e < sub_u32 s1.dbs_tuners_ins.down_threshold 10 := by
    rw [sub_u32_of_le h10 (by omega)]
    omega
  rw [hysteresis_hold s1 e _ h0 hL hsub]
  have f1 := hotplug_online_check_frame s1 e (max_load s e)
  have c1 := hotplug_online_check_calls s1 e (max_load s e)
  have f3 := hotplug_offline_check_frame (hotplug_online_check s1 e (max_load s e)).1 e
    (max_load s e)
  have c3 := hotplug_offline_check_calls (hotplug_online_check s1 e (max_load s e)).1 e
    (max_load s e)
  refine ⟨⟨?_, ?_, ?_, ?_⟩, ?_⟩
  · intro f rel hmem
    rcases List.mem_append.1 hmem with h | h
    · cases c1.1 _ h
    · cases c3.1 _ h
  · rw [f3.2.2.2.1, f1.2.2.2.1]
  · rw [f3.2.2.2.2.1, f1.2.2.2.2.1]
  · rw [f3.2.2.2.2.2, f1.2.2.2.2.2]
  · intro g1 g2
    rw [hotplug_online_check_idle s1 e _ g1]
    rw [hotplug_offline_check_idle s1 e _ g2]
    simp

/-- Witness for C4: the default tunables and load 55 on a single online CPU. -/
theorem C4_band_tick_witness :
    (dbs_check_cpu (example_state started_tuners 1300000)
        (example_env (example_policy 1300000) 45 100 1)).2 = []
    ∧ (dbs_check_cpu (example_state started_tuners 1300000)
        (example_env (example_policy 1300000) 45 100 1)).1.Lblock_cycles_online = 0
    ∧ (dbs_check_cpu (example_state started_tuners 1300000)
        (example_env (example_policy 1300000) 45 100 1)).1.Lblock_cycles_offline = 0 :=
  (C4_band_tick (example_state started_tuners 1300000)
    (example_env (example_policy 1300000) 45 100 1)
    (by decide) (by decide) (by decide) (by decide)).2 (by decide) (by decide)

/-- C5: in a hysteresis tick that calls `__cpufreq_driver_target` (a raise or a reduce),
`Lblock_cycles_raise` and `Lblock_cycles_reduce` are 0 afterwards; in any tick that
schedules the hotplug online or offline work, `Lblock_cycles_online` and
`Lblock_cycles_offline` are 0 afterwards. -/
theorem C5_counter_reset (s : GovState) (e : TickEnv) :
    (s.boostpulse_relayf = false →
      (∃ f rel, Call.cpufreq_driver_target f rel ∈ (dbs_check_cpu s e).2) →
      (dbs_check_cpu s e).1.Lblock_cycles_raise = 0
      ∧ (dbs_check_cpu s e).1.Lblock_cycles_reduce = 0)
    ∧ ((Call.schedule_hotplug_online_work ∈ (dbs_check_cpu s e).2
        ∨ Call.schedule_hotplug_offline_work ∈ (dbs_check_cpu s e).2) →
      (dbs_check_cpu s e).1.Lblock_cycles_online = 0
      ∧ (dbs_check_cpu s e).1.Lblock_cycles_offline = 0) := by
  constructor
  · intro hb hmem
    obtain ⟨f, rel, hmem⟩ := hmem
    rw [dbs_check_cpu_normal s e hb] at hmem ⊢
    exact hysteresis_freq_reset _ e _ f rel hmem
  · intro hmem
    cases hb : s.boostpulse_relayf with
    | false =>
      rw [dbs_check_cpu_normal s e hb] at hmem ⊢
      exact hysteresis_hotplug_reset _ e _ hmem
    | true =>
      rw [dbs_check_cpu_boost s e hb] at hmem
      rcases hmem with h | h
      · obtain ⟨f, hf⟩ := boost_tick_calls s e _ h
        cases hf
      · obtain ⟨f, hf⟩ := boost_tick_calls s e _ h
        cases hf

/-- Witness for C5: a tick that raises the frequency (load 60, `block_cycles_raise = 1`)
and a tick that schedules the online work (load 90, `block_cycles_online = 0`). -/
theorem C5_counter_reset_witness :
    ((dbs_check_cpu (example_state { started_tuners with block_cycles_raise := 1 } 1000000)
        (example_env (example_policy 1000000) 40 100 1)).1.Lblock_cycles_raise = 0
      ∧ (dbs_check_cpu (example_state { started_tuners with block_cycles_raise := 1 } 1000000)
        (example_env (example_policy 1000000) 40 100 1)).1.Lblock_cycles_reduce = 0)
    ∧ ((dbs_check_cpu
        (example_state { started_tuners with block_cycles_online := 0 } 1300000)
        (example_env (example_policy 1300000) 10 100 1)).1.Lblock_cycles_online = 0
      ∧ (dbs_check_cpu
        (example_state { started_tuners with block_cycles_online := 0 } 1300000)
        (example_env (example_policy 1300000) 10 100 1)).1.Lblock_cycles_offline = 0) :=
  ⟨(C5_counter_reset (example_state { started_tuners with block_cycles_raise := 1 } 1000000)
      (example_env (example_policy 1000000) 40 100 1)).1 (by decide)
      ⟨1090000, Relation.CPUFREQ_RELATION_H, by decide⟩,
    (C5_counter_reset (example_state { started_tuners with block_cycles_online := 0 } 1300000)
      (example_env (example_policy 1300000) 10 100 1)).2 (Or.inl (by decide))⟩

theorem freq_raise_wait (s : GovState) (e : TickEnv)
    (h : wrap_u32 (s.Lblock_cycles_raise + 1) < s.dbs_tuners_ins.block_cycles_raise) :
    (freq_raise s e).2 = []
    ∧ (freq_raise s e).1.Lblock_cycles_raise = wrap_u32 (s.Lblock_cycles_raise + 1)
    ∧ (freq_raise s e).1.Lblock_cycles_reduce = s.Lblock_cycles_reduce
    ∧ (freq_raise s e).1.requested_freq = s.requested_freq := by
  have h2 : ¬ wrap_u32 (s.Lblock_cycles_raise + 1) ≥ s.dbs_tuners_ins.block_cycles_raise := by
    omega
  simp only [freq_raise, if_neg h2]
  simp

theorem freq_raise_fire (s : GovState) (e : TickEnv)
    (h : wrap_u32 (s.Lblock_cycles_raise + 1) ≥ s.dbs_tuners_ins.block_cycles_raise)
    (hmax : s.requested_freq ≠ e.policy.max) :
    (freq_raise s e).2
      = [Call.cpufreq_driver_target (raise_target s.dbs_tuners_ins e.policy s.requested_freq)
          Relation.CPUFREQ_RELATION_H]
    ∧ (freq_raise s e).1.requested_freq
      = raise_target s.dbs_tuners_ins e.policy s.requested_freq
    ∧ (freq_raise s e).1.Lblock_cycles_raise = 0
    ∧ (freq_raise s e).1.Lblock_cycles_reduce = 0 := by
  simp only [freq_raise, if_pos h, if_neg hmax]
  simp

theorem hotplug_online_check_fire (s : GovState) (e : TickEnv) (L : Nat)
    (h1 : L > s.dbs_tuners_ins.up_threshold_hotplug
      ∧ e.policy.cur > s.dbs_tuners_ins.up_freq_threshold_hotplug)
    (h2 : e.num_online_cpus < 2 ∧ e.policy.cur ≠ e.policy.min)
    (h3 : wrap_u32 (s.Lblock_cycles_online + 1) > s.dbs_tuners_ins.block_cycles_online)
    (h4 : s.dbs_tuners_ins.no_2nd_cpu_screen_off = 0
      ∨ (s.dbs_tuners_ins.no_2nd_cpu_screen_off = 1 ∧ s.screen_is_on = true)) :
    (hotplug_online_check s e L).2 = [Call.schedule_hotplug_online_work] := by
  simp only [hotplug_online_check, if_pos h1, if_pos h2]
  rw [if_pos ⟨h3, h4⟩]

/-- A tick whose load exceeds `up_threshold`: the online check runs on a state `t` that
agrees with `s` on everything the raise step reads, and then the raise step runs. -/
theorem raise_tick (s : GovState) (e : TickEnv) (hb : s.boostpulse_relayf = false)
    (h0 : ¬ (s.dbs_tuners_ins.freq_step_up = 0 ∨ s.dbs_tuners_ins.freq_step_down = 0))
    (hL : max_load s e > s.dbs_tuners_ins.up_threshold) :
    ∃ (t : GovState) (cs : List Call),
      (∀ c ∈ cs, c = Call.schedule_hotplug_online_work)
      ∧ t.dbs_tuners_ins = s.dbs_tuners_ins
      ∧ t.requested_freq = s.requested_freq
      ∧ t.Lblock_cycles_raise = s.Lblock_cycles_raise
      ∧ t.Lblock_cycles_reduce = s.Lblock_cycles_reduce
      ∧ dbs_check_cpu s e = ((freq_raise t e).1, cs ++ (freq_raise t e).2) := by
  have hf := hotplug_online_check_frame
    { s with cpus := (load_loop s.dbs_tuners_ins e s.cpus 0).1 } e (max_load s e)
  have hc := hotplug_online_check_calls
    { s with cpus := (load_loop s.dbs_tuners_ins e s.cpus 0).1 } e (max_load s e)
  refine ⟨_, _, hc.1, hf.1, hf.2.2.2.1, hf.2.2.2.2.1, hf.2.2.2.2.2, ?_⟩
  rw [dbs_check_cpu_normal s e hb]
  exact hysteresis_raise _ e _ h0 hL

/-- A hysteresis tick with non-zero steps starts with the online check. -/
theorem tick_calls_online_first (s : GovState) (e : TickEnv) (hb : s.boostpulse_relayf = false)
    (h0 : ¬ (s.dbs_tuners_ins.freq_step_up = 0 ∨ s.dbs_tuners_ins.freq_step_down = 0)) :
    ∃ rest : List Call, (dbs_check_cpu s e).2
      = (hotplug_online_check { s with cpus := (load_loop s.dbs_tuners_ins e s.cpus 0).1 } e
          (max_load s e)).2 ++ rest := by
  rw [dbs_check_cpu_normal s e hb]
  have h1 : ¬ (({ s with cpus := (load_loop s.dbs_tuners_ins e s.cpus 0).1 } :
      GovState).dbs_tuners_ins.freq_step_up = 0
      ∨ ({ s with cpus := (load_loop s.dbs_tuners_ins e s.cpus 0).1 } :
      GovState).dbs_tuners_ins.freq_step_down = 0) := h0
  generalize ({ s with cpus := (load_loop s.dbs_tuners_ins e s.cpus 0).1 } : GovState) = s1 at h1 ⊢
  clear h0
  have h0 := h1
  by_cases hL : max_load s e > s1.dbs_tuners_ins.up_threshold
  · rw [hysteresis_raise s1 e _ h0 hL]
    exact ⟨_, rfl⟩
  by_cases hd : max_load s e < sub_u32 s1.dbs_tuners_ins.down_threshold 10
  · rw [hysteresis_reduce s1 e _ h0 hL hd]
    exact ⟨_, List.append_assoc _ _ _⟩
  · rw [hysteresis_hold s1 e _ h0 hL hd]
    exact ⟨_, rfl⟩

theorem dbs_check_cpu_frame (s : GovState) (e : TickEnv) (hb : s.boostpulse_relayf = false) :
    (dbs_check_cpu s e).1.dbs_tuners_ins = s.dbs_tuners_ins
    ∧ (dbs_check_cpu s e).1.boostpulse_relayf = false := by
  have h := hysteresis_frame { s with cpus := (load_loop s.dbs_tuners_ins e s.cpus 0).1 } e
    (max_load s e)
  rw [dbs_check_cpu_normal s e hb]
  exact ⟨h.1, by rw [h.2.1]; exact hb⟩

/-- C6, as stated, fails: in the scenario (default tunables, `requested_freq = 1000000`,
`policy.max = 1800000`, `policy.min = 200000`, load 60 on every tick) the second tick
already calls `__cpufreq_driver_target` with 1090000 and leaves the raise counter at 0,
not 2, and the third tick makes no call. -/
theorem C6_counterexample :
    started_tuners.up_threshold = 57 ∧ started_tuners.block_cycles_raise = 2
    ∧ started_tuners.freq_step_up = 5
    ∧ max_load (example_state started_tuners 1000000)
        (example_env (example_policy 1000000) 40 100 1) = 60
    ∧ max_load (run_ticks (example_state started_tuners 1000000)
        [example_env (example_policy 1000000) 40 100 1])
        (example_env (example_policy 1000000) 80 200 1) = 60
    ∧ max_load (run_ticks (example_state started_tuners 1000000)
        [example_env (example_policy 1000000) 40 100 1,
          example_env (example_policy 1000000) 80 200 1])
        (example_env (example_policy 1000000) 120 300 1) = 60
    ∧ (dbs_check_cpu (run_ticks (example_state started_tuners 1000000)
        [example_env (example_policy 1000000) 40 100 1])
        (example_env (example_policy 1000000) 80 200 1)).2
        = [Call.cpufreq_driver_target 1090000 Relation.CPUFREQ_RELATION_H]
    ∧ (run_ticks (example_state started_tuners 1000000)
        [example_env (example_policy 1000000) 40 100 1,
          example_env (example_policy 1000000) 80 200 1]).Lblock_cycles_raise = 0
    ∧ (dbs_check_cpu (run_ticks (example_state started_tuners 1000000)
        [example_env (example_policy 1000000) 40 100 1,
          example_env (example_policy 1000000) 80 200 1])
        (example_env (example_policy 1000000) 120 300 1)).2 = [] := by
  decide

/-- C6, amended: with `policy.max = 1800000`, `up_threshold = 57`, `block_cycles_raise = 2`,
`freq_step_up = 5`, a non-zero `freq_step_down`, `requested_freq = 1000000`, boost inactive
and the raise counter at 0, feeding load 60 gives: on tick 1 no `__cpufreq_driver_target`
call, raise counter 1, `requested_freq` unchanged; on tick 2 the call
`__cpufreq_driver_target(1090000, CPUFREQ_RELATION_H)` as the only frequency call,
`requested_freq = 1090000`, and raise and reduce counters 0. -/
theorem C6_raise_fires_on_second_tick (s : GovState) (e1 e2 : TickEnv)
    (hb : s.boostpulse_relayf = false)
    (hup : s.dbs_tuners_ins.up_threshold = 57)
    (hblk : s.dbs_tuners_ins.block_cycles_raise = 2)
    (hstep : s.dbs_tuners_ins.freq_step_up = 5)
    (hdn : s.dbs_tuners_ins.freq_step_down ≠ 0)
    (hreq : s.requested_freq = 1000000)
    (hr0 : s.Lblock_cycles_raise = 0)
    (hp2 : e2.policy.max = 1800000)
    (hl1 : max_load s e1 = 60)
    (hl2 : max_load (dbs_check_cpu s e1).1 e2 = 60) :
    ((∀ f rel, Call.cpufreq_driver_target f rel ∉ (dbs_check_cpu s e1).2)
      ∧ (dbs_check_cpu s e1).1.Lblock_cycles_raise = 1
      ∧ (dbs_check_cpu s e1).1.requested_freq = 1000000)
    ∧ (Call.cpufreq_driver_target 1090000 Relation.CPUFREQ_RELATION_H
          ∈ (dbs_check_cpu (dbs_check_cpu s e1).1 e2).2
      ∧ (∀ f rel, Call.cpufreq_driver_target f rel ∈ (dbs_check_cpu (dbs_check_cpu s e1).1 e2).2 →
          f = 1090000 ∧ rel = Relation.CPUFREQ_RELATION_H)
      ∧ (dbs_check_cpu (dbs_check_cpu s e1).1 e2).1.requested_freq = 1090000
      ∧ (dbs_check_cpu (dbs_check_cpu s e1).1 e2).1.Lblock_cycles_raise = 0
      ∧ (dbs_check_cpu (dbs_check_cpu s e1).1 e2).1.Lblock_cycles_reduce = 0) := by
  have hs0 : ¬ (s.dbs_tuners_ins.freq_step_up = 0 ∨ s.dbs_tuners_ins.freq_step_down = 0) := by
    rw [hstep]; simp [hdn]
  have hfr := dbs_check_cpu_frame s e1 hb
  -- the first tick
  obtain ⟨t, cs, hcs, ht, hq, hra, -, htick1⟩ := raise_tick s e1 hb hs0 (by rw [hl1, hup]; decide)
  have hw := freq_raise_wait t e1 (by rw [ht, hra, hblk, hr0]; decide)
  have hraise1 : (dbs_check_cpu s e1).1.Lblock_cycles_raise = 1 := by
    rw [htick1]
    show (freq_raise t e1).1.Lblock_cycles_raise = 1
    rw [hw.2.1, hra, hr0]
    decide
  have hreq1 : (dbs_check_cpu s e1).1.requested_freq = 1000000 := by
    rw [htick1]
    show (freq_raise t e1).1.requested_freq = 1000000
    rw [hw.2.2.2, hq, hreq]
  refine ⟨⟨?_, hraise1, hreq1⟩, ?_⟩
  · intro f rel hmem
    rw [htick1] at hmem
    rcases List.mem_append.1 hmem with h | h
    · cases hcs _ h
    · rw [hw.1] at h
      cases h
  -- the second tick
  generalize (dbs_check_cpu s e1).1 = s2 at hl2 hfr hraise1 hreq1 ⊢
  obtain ⟨t2, cs2, hcs2, ht2, hq2, hra2, -, htick2⟩ := raise_tick s2 e2 hfr.2
    (by rw [hfr.1]; exact hs0) (by rw [hl2, hfr.1, hup]; decide)
  have hfire := freq_raise_fire t2 e2 (by rw [ht2, hra2, hfr.1, hblk, hraise1]; decide)
    (by rw [hq2, hreq1, hp2]; decide)
  have hval : raise_target t2.dbs_tuners_ins e2.policy t2.requested_freq = 1090000 := by
    simp only [raise_target, ht2, hfr.1, hstep, hq2, hreq1, hp2]
    decide
  rw [hval] at hfire
  rw [htick2]
  refine ⟨?_, ?_, hfire.2.1, hfire.2.2.1, hfire.2.2.2⟩
  · show _ ∈ cs2 ++ (freq_raise t2 e2).2
    rw [hfire.1]
    simp
  · intro f rel hmem
    rcases List.mem_append.1 hmem with h | h
    · cases hcs2 _ h
    · rw [hfire.1] at h
      simp only [List.mem_singleton] at h
      injection h with h1 h2
      exact ⟨h1, h2⟩

/-- Witness for C6: the default tunables on a single CPU, 60 percent busy in both ticks. -/
theorem C6_raise_fires_on_second_tick_witness :
    (dbs_check_cpu (dbs_check_cpu (example_state started_tuners 1000000)
        (example_env (example_policy 1000000) 40 100 1)).1
      (example_env (example_policy 1000000) 80 200 1)).1.requested_freq = 1090000 :=
  (C6_raise_fires_on_second_tick (example_state started_tuners 1000000)
    (example_env (example_policy 1000000) 40 100 1)
    (example_env (example_policy 1000000) 80 200 1)
    (by decide) (by decide) (by decide) (by decide) (by decide) (by decide) (by decide)
    (by decide) (by decide) (by decide)).2.2.2.1

/-- C7, as stated, fails: in the scenario (one CPU online, `up_threshold_hotplug = 58`,
`up_freq_threshold_hotplug = 1200000`, `policy.cur = 1300000`, `block_cycles_online = 0`,
screen on, `no_2nd_cpu_screen_off = 0`, counter 0, load 90) the first tick already
schedules the hotplug online work. -/
theorem C7_counterexample :
    max_load (example_state
        { started_tuners with block_cycles_online := 0, no_2nd_cpu_screen_off := 0 } 1300000)
        (example_env (example_policy 1300000) 10 100 1) = 90
    ∧ (example_state
        { started_tuners with block_cycles_online := 0, no_2nd_cpu_screen_off := 0 }
        1300000).Lblock_cycles_online = 0
    ∧ (dbs_check_cpu (example_state
        { started_tuners with block_cycles_online := 0, no_2nd_cpu_screen_off := 0 } 1300000)
        (example_env (example_policy 1300000) 10 100 1)).2
        = [Call.schedule_hotplug_online_work] := by
  decide

/-- C7, amended: with one CPU online, `up_threshold_hotplug = 58`,
`up_freq_threshold_hotplug = 1200000`, `policy.cur = 1300000` different from `policy.min`,
`block_cycles_online = 0`, `no_2nd_cpu_screen_off = 0`, non-zero frequency steps, boost
inactive and the bring-online counter at 0, a tick with load 90 schedules the hotplug
online work and leaves both hotplug counters at 0: the work is scheduled on the first
tick, and again on a second such tick. -/
theorem C7_online_fires_on_first_tick (s : GovState) (e1 e2 : TickEnv)
    (hb : s.boostpulse_relayf = false)
    (h0 : ¬ (s.dbs_tuners_ins.freq_step_up = 0 ∨ s.dbs_tuners_ins.freq_step_down = 0))
    (hup : s.dbs_tuners_ins.up_threshold_hotplug = 58)
    (hfreq : s.dbs_tuners_ins.up_freq_threshold_hotplug = 1200000)
    (hblk : s.dbs_tuners_ins.block_cycles_online = 0)
    (hscr : s.dbs_tuners_ins.no_2nd_cpu_screen_off = 0)
    (hc0 : s.Lblock_cycles_online = 0)
    (hn1 : e1.num_online_cpus = 1) (hcur1 : e1.policy.cur = 1300000)
    (hmin1 : e1.policy.min ≠ 1300000) (hl1 : max_load s e1 = 90)
    (hn2 : e2.num_online_cpus = 1) (hcur2 : e2.policy.cur = 1300000)
    (hmin2 : e2.policy.min ≠ 1300000) (hl2 : max_load (dbs_check_cpu s e1).1 e2 = 90) :
    (Call.schedule_hotplug_online_work ∈ (dbs_check_cpu s e1).2
      ∧ (dbs_check_cpu s e1).1.Lblock_cycles_online = 0
      ∧ (dbs_check_cpu s e1).1.Lblock_cycles_offline = 0)
    ∧ Call.schedule_hotplug_online_work ∈ (dbs_check_cpu (dbs_check_cpu s e1).1 e2).2 := by
  have key : ∀ (s : GovState) (e : TickEnv), s.boostpulse_relayf = false →
      ¬ (s.dbs_tuners_ins.freq_step_up = 0 ∨ s.dbs_tuners_ins.freq_step_down = 0) →
      s.dbs_tuners_ins.up_threshold_hotplug = 58 →
      s.dbs_tuners_ins.up_freq_threshold_hotplug = 1200000 →
      s.dbs_tuners_ins.block_cycles_online = 0 →
      s.dbs_tuners_ins.no_2nd_cpu_screen_off = 0 →
      s.Lblock_cycles_online = 0 → e.num_online_cpus = 1 → e.policy.cur = 1300000 →
      e.policy.min ≠ 1300000 → max_load s e = 90 →
      Call.schedule_hotplug_online_work ∈ (dbs_check_cpu s e).2 := by
    intro s e hb h0 hup hfreq hblk hscr hc0 hn hcur hmin hl
    obtain ⟨rest, hrest⟩ := tick_calls_online_first s e hb h0
    have hfire := hotplug_online_check_fire
      { s with cpus := (load_loop s.dbs_tuners_ins e s.cpus 0).1 } e (max_load s e)
      (by
        show max_load s e > s.dbs_tuners_ins.up_threshold_hotplug
          ∧ e.policy.cur > s.dbs_tuners_ins.up_freq_threshold_hotplug
        rw [hl, hup, hcur, hfreq]; decide)
      (by rw [hn, hcur]; exact ⟨by decide, fun h => hmin h.symm⟩)
      (by
        show wrap_u32 (s.Lblock_cycles_online + 1) > s.dbs_tuners_ins.block_cycles_online
        rw [hc0, hblk]; decide)
      (Or.inl hscr)
    rw [hrest, hfire]
    simp
  have h1 := key s e1 hb h0 hup hfreq hblk hscr hc0 hn1 hcur1 hmin1 hl1
  have hreset : (dbs_check_cpu s e1).1.Lblock_cycles_online = 0
      ∧ (dbs_check_cpu s e1).1.Lblock_cycles_offline = 0 := by
    rw [dbs_check_cpu_normal s e1 hb] at h1 ⊢
    exact hysteresis_hotplug_reset _ e1 _ (Or.inl h1)
  have hfr := dbs_check_cpu_frame s e1 hb
  refine ⟨⟨h1, hreset.1, hreset.2⟩, ?_⟩
  exact key _ e2 hfr.2 (by rw [hfr.1]; exact h0) (by rw [hfr.1]; exact hup)
    (by rw [hfr.1]; exact hfreq) (by rw [hfr.1]; exact hblk) (by rw [hfr.1]; exact hscr)
    hreset.1 hn2 hcur2 hmin2 hl2

/-- Witness for C7: the scenario on a single CPU that is 90 percent busy in both ticks. -/
theorem C7_online_fires_on_first_tick_witness :
    Call.schedule_hotplug_online_work ∈ (dbs_check_cpu (example_state
        { started_tuners with block_cycles_online := 0, no_2nd_cpu_screen_off := 0 } 1300000)
        (example_env (example_policy 1300000) 10 100 1)).2 :=
  (C7_online_fires_on_first_tick
    (example_state
      { started_tuners with block_cycles_online := 0, no_2nd_cpu_screen_off := 0 } 1300000)
    (example_env (example_policy 1300000) 10 100 1)
    (example_env (example_policy 1300000) 20 200 1)
    (by decide) (by decide) (by decide) (by decide) (by decide) (by decide) (by decide)
    (by decide) (by decide) (by decide) (by decide) (by decide) (by decide) (by decide)
    (by decide)).1.1

/-- C8, as stated, fails for `sampling_rate = 0` (the value before the governor is first
started, and one `store_sampling_rate` accepts): screen-off saves 0, screen-on restores
only a saved value above 0, so the rate stays at `sampling_rate_screen_off = 45000`. -/
theorem C8_counterexample :
    (example_state dbs_tuners_default 1000000).dbs_tuners_ins.sampling_rate = 0
    ∧ (screen_is_on_relay_kt
        (screen_is_on_relay_kt (example_state dbs_tuners_default 1000000) false)
        true).dbs_tuners_ins.sampling_rate = 45000 := by
  decide

/-- C8, amended: for every `sampling_rate` above 0 and every `sampling_rate_screen_off`,
`screen_is_on_relay_kt(false)` followed by `screen_is_on_relay_kt(true)` leaves
`sampling_rate` at its value before the two calls. -/
theorem C8_screen_roundtrip (s : GovState) (hr : 0 < s.dbs_tuners_ins.sampling_rate) :
    (screen_is_on_relay_kt (screen_is_on_relay_kt s false) true).dbs_tuners_ins.sampling_rate
      = s.dbs_tuners_ins.sampling_rate := by
  simp [screen_is_on_relay_kt, hr]

/-- Witness for C8: the started governor, `sampling_rate = 45000`. -/
theorem C8_screen_roundtrip_witness :
    (screen_is_on_relay_kt
        (screen_is_on_relay_kt (example_state started_tuners 1000000) false)
        true).dbs_tuners_ins.sampling_rate = 45000 :=
  C8_screen_roundtrip (example_state started_tuners 1000000) (by decide)

theorem hotplug_offline_check_online_le (s : GovState) (e : TickEnv) (L : Nat) :
    (hotplug_offline_check s e L).1.Lblock_cycles_online ≤ s.Lblock_cycles_online := by
  simp only [hotplug_offline_check]
  split_ifs <;> simp

theorem freq_reduce_raise_le (s : GovState) (e : TickEnv) :
    (freq_reduce s e).1.Lblock_cycles_raise ≤ s.Lblock_cycles_raise := by
  simp only [freq_reduce]
  split_ifs <;> simp

/-- C9, as stated, fails: with `block_cycles_offline = 0` and `block_cycles_reduce = 0`, two
CPUs online, `policy.cur = 700000` and a single CPU whose wall delta is 0 (so it is
skipped), the tick runs with load 0, schedules the hotplug offline work and lowers
`requested_freq` from 700000 to 610000. -/
theorem C9_counterexample :
    (example_state { started_tuners with block_cycles_offline := 0, block_cycles_reduce := 0 }
        700000).boostpulse_relayf = false
    ∧ (∀ j ∈ (example_state
          { started_tuners with block_cycles_offline := 0, block_cycles_reduce := 0 }
          700000).cpus,
        wall_time (example_env (example_policy 700000) 0 0 2) j = 0)
    ∧ (dbs_check_cpu
        (example_state { started_tuners with block_cycles_offline := 0, block_cycles_reduce := 0 }
          700000)
        (example_env (example_policy 700000) 0 0 2)).2
      = [Call.schedule_hotplug_offline_work,
          Call.cpufreq_driver_target 610000 Relation.CPUFREQ_RELATION_H]
    ∧ (dbs_check_cpu
        (example_state { started_tuners with block_cycles_offline := 0, block_cycles_reduce := 0 }
          700000)
        (example_env (example_policy 700000) 0 0 2)).1.requested_freq = 610000 := by
  decide

/-- C9, amended: with boost inactive, if every CPU of the domain is skipped by the load
sampler, the tick is decided as a tick with domain load 0: it schedules no hotplug online
work and increments neither the raise nor the bring-online counter (each is unchanged or
reset to 0); it emits nothing and changes none of the four counters nor `requested_freq`
when `freq_step_up` or `freq_step_down` is 0, or when load 0 qualifies neither for the
offline gate nor for the reduce step. -/
theorem C9_no_sample_tick (s : GovState) (e : TickEnv)
    (hb : s.boostpulse_relayf = false)
    (hskip : ∀ j ∈ s.cpus, wall_time e j = 0
      ∨ wall_time e j < idle_time s.dbs_tuners_ins e j) :
    max_load s e = 0
    ∧ dbs_check_cpu s e
        = hysteresis { s with cpus := (load_loop s.dbs_tuners_ins e s.cpus 0).1 } e 0
    ∧ Call.schedule_hotplug_online_work ∉ (dbs_check_cpu s e).2
    ∧ (dbs_check_cpu s e).1.Lblock_cycles_raise ≤ s.Lblock_cycles_raise
    ∧ (dbs_check_cpu s e).1.Lblock_cycles_online ≤ s.Lblock_cycles_online
    ∧ (((s.dbs_tuners_ins.freq_step_up = 0 ∨ s.dbs_tuners_ins.freq_step_down = 0)
          ∨ (¬ (0 < s.dbs_tuners_ins.down_threshold_hotplug
                ∧ s.dbs_tuners_ins.disable_hotplugging = 0
                ∧ e.policy.cur < s.dbs_tuners_ins.down_freq_threshold_hotplug
                ∧ e.num_online_cpus > 1)
              ∧ ¬ 0 < sub_u32 s.dbs_tuners_ins.down_threshold 10)) →
        (dbs_check_cpu s e).2 = []
        ∧ (dbs_check_cpu s e).1.requested_freq = s.requested_freq
        ∧ (dbs_check_cpu s e).1.Lblock_cycles_raise = s.Lblock_cycles_raise
        ∧ (dbs_check_cpu s e).1.Lblock_cycles_reduce = s.Lblock_cycles_reduce
        ∧ (dbs_check_cpu s e).1.Lblock_cycles_online = s.Lblock_cycles_online
        ∧ (dbs_check_cpu s e).1.Lblock_cycles_offline = s.Lblock_cycles_offline) := by
  have hload : max_load s e = 0 := load_loop_skipped s.dbs_tuners_ins e s.cpus hskip 0
  refine ⟨hload, by rw [dbs_check_cpu_normal s e hb, hload], ?_⟩
  rw [dbs_check_cpu_normal s e hb, hload]
  generalize hs1 : ({ s with cpus := (load_loop s.dbs_tuners_ins e s.cpus 0).1 } : GovState) = s1
  have ht : s.dbs_tuners_ins = s1.dbs_tuners_ins := by rw [← hs1]
  have hq : s.requested_freq = s1.requested_freq := by rw [← hs1]
  have hra : s.Lblock_cycles_raise = s1.Lblock_cycles_raise := by rw [← hs1]
  have hre : s.Lblock_cycles_reduce = s1.Lblock_cycles_reduce := by rw [← hs1]
  have hon : s.Lblock_cycles_online = s1.Lblock_cycles_online := by rw [← hs1]
  have hof : s.Lblock_cycles_offline = s1.Lblock_cycles_offline := by rw [← hs1]
  rw [ht, hq, hra, hre, hon, hof]
  clear hskip hload hb ht hq hra hre hon hof hs1
  by_cases h0 : s1.dbs_tuners_ins.freq_step_up = 0 ∨ s1.dbs_tuners_ins.freq_step_down = 0
  · rw [hysteresis_disabled s1 e 0 h0]
    simp
  have hL : ¬ 0 > s1.dbs_tuners_ins.up_threshold := by omega
  have hidle : hotplug_online_check s1 e 0 = (s1, []) :=
    hotplug_online_check_idle s1 e 0 (by omega)
  have c3 := hotplug_offline_check_calls s1 e 0
  have f3 := hotplug_offline_check_frame s1 e 0
  have l3 := hotplug_offline_check_online_le s1 e 0
  have c4 := freq_reduce_calls (hotplug_offline_check s1 e 0).1 e
  have f4 := freq_reduce_frame (hotplug_offline_check s1 e 0).1 e
  have l4 := freq_reduce_raise_le (hotplug_offline_check s1 e 0).1 e
  by_cases hd : 0 < sub_u32 s1.dbs_tuners_ins.down_threshold 10
  · rw [hysteresis_reduce s1 e 0 h0 hL hd, hidle]
    refine ⟨?_, ?_, ?_, ?_⟩
    · intro hmem
      simp only [List.nil_append] at hmem
      rcases List.mem_append.1 hmem with h | h
      · cases c3.1 _ h
      · obtain ⟨f, hf⟩ := c4.1 _ h
        cases hf
    · show (freq_reduce (hotplug_offline_check s1 e 0).1 e).1.Lblock_cycles_raise ≤ _
      rw [← f3.2.2.2.2.1]
      exact l4
    · show (freq_reduce (hotplug_offline_check s1 e 0).1 e).1.Lblock_cycles_online ≤ _
      rw [f4.2.2.2.1]
      exact l3
    · intro h
      rcases h with h | h
      · exact absurd h h0
      · exact absurd hd h.2
  · rw [hysteresis_hold s1 e 0 h0 hL hd, hidle]
    refine ⟨?_, ?_, ?_, ?_⟩
    · intro hmem
      simp only [List.nil_append] at hmem
      cases c3.1 _ hmem
    · show (hotplug_offline_check s1 e 0).1.Lblock_cycles_raise ≤ _
      rw [f3.2.2.2.2.1]
    · exact l3
    · intro h
      rcases h with h | h
      · exact absurd h h0
      · rw [hotplug_offline_check_idle s1 e 0 h.1]
        simp

/-- Witness for C9: a CPU whose wall delta is 0, with `freq_step_down = 0`. -/
theorem C9_no_sample_tick_witness :
    (dbs_check_cpu (example_state { started_tuners with freq_step_down := 0 } 700000)
        (example_env (example_policy 700000) 0 0 2)).2 = [] :=
  ((C9_no_sample_tick (example_state { started_tuners with freq_step_down := 0 } 700000)
    (example_env (example_policy 700000) 0 0 2) (by decide) (by decide)).2.2.2.2.2
      (Or.inl (Or.inr (by decide)))).1

/-- C10, as stated, fails: for `wall_time = 50000000` and `idle_time = 0` the product
`100 * 50000000` wraps modulo `2^32` and the computed load is 14, while
`100 * (w - i) / w` is 100. -/
theorem C10_counterexample :
    0 < 50000000 ∧ 0 ≤ 50000000 ∧ 50000000 < 4294967296
    ∧ cpu_load 50000000 0 = some 14
    ∧ 100 * (50000000 - 0) / 50000000 = 100 := by
  decide

/-- C10, amended: for wall and idle deltas `w > 0`, `w ≥ i` with `100 * (w - i) < 2^32`,
the CPU is sampled and its load is `100 * (w - i) / w` in exact integer arithmetic. -/
theorem C10_load_exact (w i : Nat) (hw : 0 < w) (hi : i ≤ w)
    (hno : 100 * (w - i) < 4294967296) :
    cpu_load w i = some (100 * (w - i) / w) := by
  have hskip : ¬ (w = 0 ∨ w < i) := by omega
  unfold cpu_load wrap_u32
  rw [if_neg hskip, Nat.mod_eq_of_lt hno]

/-- Witness for C10: 100 microseconds of wall time, 40 of them idle, load 60. -/
theorem C10_load_exact_witness : cpu_load 100 40 = some 60 :=
  C10_load_exact 100 40 (by decide) (by decide) (by decide)

/-! ## Lemmas on the shape of the call list -/

theorem hotplug_online_check_shape (s : GovState) (e : TickEnv) (L : Nat) :
    (hotplug_online_check s e L).2 = []
    ∨ ((hotplug_online_check s e L).2 = [Call.schedule_hotplug_online_work]
        ∧ e.num_online_cpus < 2) := by
  simp only [hotplug_online_check]
  split_ifs with h1 h2 h3 <;> simp
  exact h2.1

theorem hotplug_offline_check_shape (s : GovState) (e : TickEnv) (L : Nat) :
    (hotplug_offline_check s e L).2 = []
    ∨ ((hotplug_offline_check s e L).2 = [Call.schedule_hotplug_offline_work]
        ∧ e.num_online_cpus > 1) := by
  simp only [hotplug_offline_check]
  split_ifs with h1 h2 h3 <;> simp
  exact h2

theorem freq_raise_shape (s : GovState) (e : TickEnv) :
    (freq_raise s e).2 = []
    ∨ ∃ f, (freq_raise s e).2 = [Call.cpufreq_driver_target f Relation.CPUFREQ_RELATION_H] := by
  simp only [freq_raise]
  split_ifs <;> simp

theorem freq_reduce_shape (s : GovState) (e : TickEnv) :
    (freq_reduce s e).2 = []
    ∨ ∃ f, (freq_reduce s e).2 = [Call.cpufreq_driver_target f Relation.CPUFREQ_RELATION_H] := by
  simp only [freq_reduce]
  split_ifs <;> simp

theorem boost_tick_shape (s : GovState) (e : TickEnv) :
    (boost_tick s e).2 = []
    ∨ ∃ f, (boost_tick s e).2 = [Call.cpufreq_driver_target f Relation.CPUFREQ_RELATION_H] := by
  simp only [boost_tick]
  split_ifs <;> simp

theorem hysteresis_shape (s : GovState) (e : TickEnv) (L : Nat) :
    ∃ hot fr : List Call, (hysteresis s e L).2 = hot ++ fr
      ∧ (hot = [] ∨ hot = [Call.schedule_hotplug_online_work]
          ∨ hot = [Call.schedule_hotplug_offline_work])
      ∧ (fr = [] ∨ ∃ f, fr = [Call.cpufreq_driver_target f Relation.CPUFREQ_RELATION_H]) := by
  have hon := hotplug_online_check_shape s e L
  have hoff := hotplug_offline_check_shape (hotplug_online_check s e L).1 e L
  -- the two hotplug checks together request at most one action
  have hhot : (hotplug_online_check s e L).2
        ++ (hotplug_offline_check (hotplug_online_check s e L).1 e L).2 = []
      ∨ (hotplug_online_check s e L).2
        ++ (hotplug_offline_check (hotplug_online_check s e L).1 e L).2
          = [Call.schedule_hotplug_online_work]
      ∨ (hotplug_online_check s e L).2
        ++ (hotplug_offline_check (hotplug_online_check s e L).1 e L).2
          = [Call.schedule_hotplug_offline_work] := by
    rcases hon with h1 | ⟨h1, n1⟩ <;> rcases hoff with h2 | ⟨h2, n2⟩
    · left; rw [h1, h2]; rfl
    · right; right; rw [h1, h2]; rfl
    · right; left; rw [h1, h2]; rfl
    · omega
  by_cases h0 : s.dbs_tuners_ins.freq_step_up = 0 ∨ s.dbs_tuners_ins.freq_step_down = 0
  · rw [hysteresis_disabled s e L h0]
    exact ⟨[], [], rfl, Or.inl rfl, Or.inl rfl⟩
  by_cases hL : L > s.dbs_tuners_ins.up_threshold
  · rw [hysteresis_raise s e L h0 hL]
    refine ⟨_, _, rfl, ?_, freq_raise_shape _ e⟩
    rcases hon with h1 | ⟨h1, -⟩
    · exact Or.inl h1
    · exact Or.inr (Or.inl h1)
  by_cases hd : L < sub_u32 s.dbs_tuners_ins.down_threshold 10
  · rw [hysteresis_reduce s e L h0 hL hd]
    exact ⟨_, _, rfl, hhot, freq_reduce_shape _ e⟩
  · rw [hysteresis_hold s e L h0 hL hd]
    exact ⟨_, [], (List.append_nil _).symm, hhot, Or.inl rfl⟩

/-- C11, as stated, fails: with `block_cycles_online = 0`, `block_cycles_raise = 1`, one CPU
online, `policy.cur = 1300000` and load 90, one tick both schedules the hotplug online
work and calls `__cpufreq_driver_target`. -/
theorem C11_counterexample :
    (dbs_check_cpu
        (example_state { started_tuners with block_cycles_online := 0, block_cycles_raise := 1 }
          1300000)
        (example_env (example_policy 1300000) 10 100 1)).2
      = [Call.schedule_hotplug_online_work,
          Call.cpufreq_driver_target 1390000 Relation.CPUFREQ_RELATION_H] := by
  decide

/-- C11, amended: a single call of `dbs_check_cpu` emits at most one hotplug action (the
online work or the offline work, never both) followed by at most one
`__cpufreq_driver_target` call, and nothing else. -/
theorem C11_one_hotplug_then_one_frequency (s : GovState) (e : TickEnv) :
    ∃ hot fr : List Call, (dbs_check_cpu s e).2 = hot ++ fr
      ∧ (hot = [] ∨ hot = [Call.schedule_hotplug_online_work]
          ∨ hot = [Call.schedule_hotplug_offline_work])
      ∧ (fr = [] ∨ ∃ f, fr = [Call.cpufreq_driver_target f Relation.CPUFREQ_RELATION_H]) := by
  cases hb : s.boostpulse_relayf with
  | false =>
    rw [dbs_check_cpu_normal s e hb]
    exact hysteresis_shape _ e _
  | true =>
    rw [dbs_check_cpu_boost s e hb]
    exact ⟨[], _, rfl, Or.inl rfl, boost_tick_shape s e⟩

/-- C12: with boost inactive, if `freq_step_up = 0` or `freq_step_down = 0`, a tick emits
no call at all and leaves `requested_freq` and the four debounce counters unchanged. -/
theorem C12_zero_step_disables (s : GovState) (e : TickEnv)
    (hb : s.boostpulse_relayf = false)
    (h0 : s.dbs_tuners_ins.freq_step_up = 0 ∨ s.dbs_tuners_ins.freq_step_down = 0) :
    (dbs_check_cpu s e).2 = []
    ∧ (dbs_check_cpu s e).1.requested_freq = s.requested_freq
    ∧ (dbs_check_cpu s e).1.Lblock_cycles_raise = s.Lblock_cycles_raise
    ∧ (dbs_check_cpu s e).1.Lblock_cycles_reduce = s.Lblock_cycles_reduce
    ∧ (dbs_check_cpu s e).1.Lblock_cycles_online = s.Lblock_cycles_online
    ∧ (dbs_check_cpu s e).1.Lblock_cycles_offline = s.Lblock_cycles_offline := by
  rw [dbs_check_cpu_normal s e hb]
  rw [hysteresis_disabled { s with cpus := (load_loop s.dbs_tuners_ins e s.cpus 0).1 } e _ h0]
  exact ⟨rfl, rfl, rfl, rfl, rfl, rfl⟩

/-- Witness for C12: `freq_step_up = 0` and a CPU that is 90 percent busy. -/
theorem C12_zero_step_disables_witness :
    (dbs_check_cpu (example_state { started_tuners with freq_step_up := 0 } 1300000)
        (example_env (example_policy 1300000) 10 100 1)).2 = []
    ∧ (dbs_check_cpu (example_state { started_tuners with freq_step_up := 0 } 1300000)
        (example_env (example_policy 1300000) 10 100 1)).1.requested_freq = 1300000 :=
  ⟨(C12_zero_step_disables (example_state { started_tuners with freq_step_up := 0 } 1300000)
      (example_env (example_policy 1300000) 10 100 1) (by decide) (Or.inl (by decide))).1,
    (C12_zero_step_disables (example_state { started_tuners with freq_step_up := 0 } 1300000)
      (example_env (example_policy 1300000) 10 100 1) (by decide) (Or.inl (by decide))).2.1⟩

/-! ## Lemmas on the raise counter along a run -/

theorem wrap_u32_le (n : Nat) : wrap_u32 n ≤ n := Nat.mod_le n 4294967296

theorem freq_raise_counter_le (s : GovState) (e : TickEnv) :
    (freq_raise s e).1.Lblock_cycles_raise ≤ s.Lblock_cycles_raise + 1 := by
  have := wrap_u32_le (s.Lblock_cycles_raise + 1)
  simp only [freq_raise]
  split_ifs <;> simp
  omega

theorem freq_raise_calls_block (s : GovState) (e : TickEnv) (h : (freq_raise s e).2 ≠ []) :
    s.dbs_tuners_ins.block_cycles_raise ≤ s.Lblock_cycles_raise + 1 := by
  by_contra hlt
  have hw := wrap_u32_le (s.Lblock_cycles_raise + 1)
  exact h (freq_raise_wait s e (by omega)).1

theorem hysteresis_raise_counter_le (s : GovState) (e : TickEnv) (L : Nat) :
    (hysteresis s e L).1.Lblock_cycles_raise
      ≤ s.Lblock_cycles_raise + (if L > s.dbs_tuners_ins.up_threshold then 1 else 0) := by
  have f1 := hotplug_online_check_frame s e L
  have f3 := hotplug_offline_check_frame (hotplug_online_check s e L).1 e L
  by_cases h0 : s.dbs_tuners_ins.freq_step_up = 0 ∨ s.dbs_tuners_ins.freq_step_down = 0
  · rw [hysteresis_disabled s e L h0]
    exact Nat.le_add_right _ _
  by_cases hL : L > s.dbs_tuners_ins.up_threshold
  · rw [hysteresis_raise s e L h0 hL, if_pos hL]
    have := freq_raise_counter_le (hotplug_online_check s e L).1 e
    rw [f1.2.2.2.2.1] at this
    exact this
  rw [if_neg hL]
  by_cases hd : L < sub_u32 s.dbs_tuners_ins.down_threshold 10
  · rw [hysteresis_reduce s e L h0 hL hd]
    have := freq_reduce_raise_le (hotplug_offline_check (hotplug_online_check s e L).1 e L).1 e
    rw [f3.2.2.2.2.1, f1.2.2.2.2.1] at this
    exact this
  · rw [hysteresis_hold s e L h0 hL hd]
    show (hotplug_offline_check (hotplug_online_check s e L).1 e L).1.Lblock_cycles_raise ≤ _
    rw [f3.2.2.2.2.1, f1.2.2.2.2.1]
    omega

theorem dbs_check_cpu_raise_counter_le (s : GovState) (e : TickEnv)
    (hb : s.boostpulse_relayf = false) :
    (dbs_check_cpu s e).1.Lblock_cycles_raise
      ≤ s.Lblock_cycles_raise + (if max_load s e > s.dbs_tuners_ins.up_threshold then 1 else 0) := by
  rw [dbs_check_cpu_normal s e hb]
  exact hysteresis_raise_counter_le { s with cpus := (load_loop s.dbs_tuners_ins e s.cpus 0).1 } e _

theorem run_ticks_raise_counter_le :
    ∀ (es : List TickEnv) (s : GovState), s.boostpulse_relayf = false →
      (run_ticks s es).boostpulse_relayf = false
      ∧ (run_ticks s es).dbs_tuners_ins = s.dbs_tuners_ins
      ∧ (run_ticks s es).Lblock_cycles_raise
          ≤ s.Lblock_cycles_raise + ticks_above_up_threshold s es := by
  intro es
  induction es with
  | nil => intro s hb; exact ⟨hb, rfl, by simp [run_ticks, ticks_above_up_threshold]⟩
  | cons e es ih =>
    intro s hb
    have hfr := dbs_check_cpu_frame s e hb
    have hle := dbs_check_cpu_raise_counter_le s e hb
    have h := ih (dbs_check_cpu s e).1 hfr.2
    simp only [run_ticks, ticks_above_up_threshold]
    refine ⟨h.1, by rw [h.2.1, hfr.1], ?_⟩
    omega

theorem ticks_above_up_threshold_snoc :
    ∀ (es : List TickEnv) (s : GovState) (e : TickEnv),
      ticks_above_up_threshold s (es ++ [e])
        = ticks_above_up_threshold s es
          + (if max_load (run_ticks s es) e > (run_ticks s es).dbs_tuners_ins.up_threshold
              then 1 else 0) := by
  intro es
  induction es with
  | nil => intro s e; simp [run_ticks, ticks_above_up_threshold]
  | cons e1 es ih =>
    intro s e
    have h := ih (dbs_check_cpu s e1).1 e
    rw [List.cons_append, ticks_above_up_threshold, ticks_above_up_threshold, run_ticks, h]
    omega

/-- C13, as stated, fails: with the default tunables (`block_cycles_raise = 2`,
`up_threshold = 57`) and loads 60, 55, 60 from zeroed counters, the third tick raises the
frequency although the load of the tick immediately before it, 55, did not exceed
`up_threshold`: the second tick left the raise counter at 1. -/
theorem C13_counterexample :
    started_tuners.block_cycles_raise = 2 ∧ started_tuners.up_threshold = 57
    ∧ max_load (example_state started_tuners 1000000)
        (example_env (example_policy 1000000) 40 100 1) = 60
    ∧ max_load (run_ticks (example_state started_tuners 1000000)
        [example_env (example_policy 1000000) 40 100 1])
        (example_env (example_policy 1000000) 85 200 1) = 55
    ∧ max_load (run_ticks (example_state started_tuners 1000000)
        [example_env (example_policy 1000000) 40 100 1,
          example_env (example_policy 1000000) 85 200 1])
        (example_env (example_policy 1000000) 125 300 1) = 60
    ∧ (dbs_check_cpu (run_ticks (example_state started_tuners 1000000)
        [example_env (example_policy 1000000) 40 100 1,
          example_env (example_policy 1000000) 85 200 1])
        (example_env (example_policy 1000000) 125 300 1)).2
      = [Call.cpufreq_driver_target 1090000 Relation.CPUFREQ_RELATION_H] := by
  decide

theorem raise_needs_qualifying_ticks (s : GovState) (es : List TickEnv)
    (e : TickEnv) (f : Nat) (rel : Relation)
    (hb : s.boostpulse_relayf = false)
    (hr0 : s.Lblock_cycles_raise = 0)
    (hL : max_load (run_ticks s es) e > s.dbs_tuners_ins.up_threshold)
    (hmem : Call.cpufreq_driver_target f rel ∈ (dbs_check_cpu (run_ticks s es) e).2) :
    s.dbs_tuners_ins.block_cycles_raise ≤ ticks_above_up_threshold s (es ++ [e]) := by
  have hrun := run_ticks_raise_counter_le es s hb
  rw [ticks_above_up_threshold_snoc es s e, hrun.2.1, if_pos hL]
  generalize run_ticks s es = s1 at hrun hL hmem
  by_cases h0 : s1.dbs_tuners_ins.freq_step_up = 0 ∨ s1.dbs_tuners_ins.freq_step_down = 0
  · rw [dbs_check_cpu_normal s1 e hrun.1,
      hysteresis_disabled { s1 with cpus := (load_loop s1.dbs_tuners_ins e s1.cpus 0).1 } e _ h0]
      at hmem
    cases hmem
  obtain ⟨t, cs, hcs, ht, -, hra, -, htick⟩ := raise_tick s1 e hrun.1 h0
    (by rw [hrun.2.1]; exact hL)
  rw [htick] at hmem
  rcases List.mem_append.1 hmem with h | h
  · cases hcs _ h
  · have hblk := freq_raise_calls_block t e (List.ne_nil_of_mem h)
    rw [ht, hra, hrun.2.1] at hblk
    omega

theorem freq_reduce_raise_cases (s : GovState) (e : TickEnv) :
    (freq_reduce s e).1.Lblock_cycles_raise = s.Lblock_cycles_raise
    ∨ ((freq_reduce s e).1.Lblock_cycles_raise = 0
        ∧ wrap_u32 (s.Lblock_cycles_reduce + 1) > s.dbs_tuners_ins.block_cycles_reduce) := by
  simp only [freq_reduce]
  split_ifs with h1 h2
  · exact Or.inr ⟨rfl, h1⟩
  · exact Or.inr ⟨rfl, h1⟩
  · exact Or.inl rfl

theorem hysteresis_raise_counter_kept (s : GovState) (e : TickEnv) (L : Nat)
    (hL : ¬ L > s.dbs_tuners_ins.up_threshold) :
    (hysteresis s e L).1.Lblock_cycles_raise = s.Lblock_cycles_raise
    ∨ ((hysteresis s e L).1.Lblock_cycles_raise = 0
        ∧ L < sub_u32 s.dbs_tuners_ins.down_threshold 10
        ∧ wrap_u32 (s.Lblock_cycles_reduce + 1) > s.dbs_tuners_ins.block_cycles_reduce) := by
  have f1 := hotplug_online_check_frame s e L
  have f3 := hotplug_offline_check_frame (hotplug_online_check s e L).1 e L
  by_cases h0 : s.dbs_tuners_ins.freq_step_up = 0 ∨ s.dbs_tuners_ins.freq_step_down = 0
  · rw [hysteresis_disabled s e L h0]
    exact Or.inl rfl
  by_cases hd : L < sub_u32 s.dbs_tuners_ins.down_threshold 10
  · rw [hysteresis_reduce s e L h0 hL hd]
    have h4 := freq_reduce_raise_cases
      (hotplug_offline_check (hotplug_online_check s e L).1 e L).1 e
    rw [f3.1, f1.1, f3.2.2.2.2.1, f1.2.2.2.2.1, f3.2.2.2.2.2, f1.2.2.2.2.2] at h4
    rcases h4 with h | h
    · exact Or.inl h
    · exact Or.inr ⟨h.1, hd, h.2⟩
  · rw [hysteresis_hold s e L h0 hL hd]
    left
    show (hotplug_offline_check (hotplug_online_check s e L).1 e L).1.Lblock_cycles_raise = _
    rw [f3.2.2.2.2.1, f1.2.2.2.2.1]

/-- C13, amended: in a run of hysteresis ticks that starts with boost inactive and the
raise counter at 0, if a tick whose load exceeds `up_threshold` calls
`__cpufreq_driver_target` (a raise), then the load exceeded `up_threshold` on at least
`block_cycles_raise` ticks of the run up to and including that tick; these ticks need not
be consecutive, because a tick whose load is not above `up_threshold` leaves the raise
counter as it is unless the reduce step resets it to 0 (load below `down_threshold - 10`
and the incremented reduce counter above `block_cycles_reduce`). -/
theorem C13_raise_needs_block_cycles_qualifying_ticks (s : GovState) (es : List TickEnv)
    (e : TickEnv)
    (hb : s.boostpulse_relayf = false)
    (hr0 : s.Lblock_cycles_raise = 0) :
    (max_load (run_ticks s es) e > s.dbs_tuners_ins.up_threshold →
      (∃ f rel, Call.cpufreq_driver_target f rel ∈ (dbs_check_cpu (run_ticks s es) e).2) →
      s.dbs_tuners_ins.block_cycles_raise ≤ ticks_above_up_threshold s (es ++ [e]))
    ∧ (¬ max_load (run_ticks s es) e > s.dbs_tuners_ins.up_threshold →
      (dbs_check_cpu (run_ticks s es) e).1.Lblock_cycles_raise
          = (run_ticks s es).Lblock_cycles_raise
      ∨ ((dbs_check_cpu (run_ticks s es) e).1.Lblock_cycles_raise = 0
          ∧ max_load (run_ticks s es) e < sub_u32 s.dbs_tuners_ins.down_threshold 10
          ∧ wrap_u32 ((run_ticks s es).Lblock_cycles_reduce + 1)
              > s.dbs_tuners_ins.block_cycles_reduce)) := by
  constructor
  · intro hL hmem
    obtain ⟨f, rel, hmem⟩ := hmem
    exact raise_needs_qualifying_ticks s es e f rel hb hr0 hL hmem
  · intro hL
    have hrun := run_ticks_raise_counter_le es s hb
    rw [← hrun.2.1] at hL ⊢
    rw [dbs_check_cpu_normal _ e hrun.1]
    exact hysteresis_raise_counter_kept
      { run_ticks s es with
        cpus := (load_loop (run_ticks s es).dbs_tuners_ins e (run_ticks s es).cpus 0).1 }
      e _ hL

/-- Witness for C13: the default tunables and load 60 on two ticks in a row, the second
of which raises the frequency; and loads 60 then 55, where the second tick keeps the raise
counter at 1. -/
theorem C13_raise_needs_block_cycles_qualifying_ticks_witness :
    started_tuners.block_cycles_raise
      ≤ ticks_above_up_threshold (example_state started_tuners 1000000)
          ([example_env (example_policy 1000000) 40 100 1]
            ++ [example_env (example_policy 1000000) 80 200 1])
    ∧ ((dbs_check_cpu (run_ticks (example_state started_tuners 1000000)
          [example_env (example_policy 1000000) 40 100 1])
          (example_env (example_policy 1000000) 85 200 1)).1.Lblock_cycles_raise
        = (run_ticks (example_state started_tuners 1000000)
          [example_env (example_policy 1000000) 40 100 1]).Lblock_cycles_raise
      ∨ ((dbs_check_cpu (run_ticks (example_state started_tuners 1000000)
          [example_env (example_policy 1000000) 40 100 1])
          (example_env (example_policy 1000000) 85 200 1)).1.Lblock_cycles_raise = 0
        ∧ max_load (run_ticks (example_state started_tuners 1000000)
            [example_env (example_policy 1000000) 40 100 1])
            (example_env (example_policy 1000000) 85 200 1)
          < sub_u32 started_tuners.down_threshold 10
        ∧ wrap_u32 ((run_ticks (example_state started_tuners 1000000)
            [example_env (example_policy 1000000) 40 100 1]).Lblock_cycles_reduce + 1)
          > started_tuners.block_cycles_reduce)) :=
  ⟨(C13_raise_needs_block_cycles_qualifying_ticks (example_state started_tuners 1000000)
      [example_env (example_policy 1000000) 40 100 1]
      (example_env (example_policy 1000000) 80 200 1) (by decide) (by decide)).1
      (by decide) ⟨1090000, Relation.CPUFREQ_RELATION_H, by decide⟩,
    (C13_raise_needs_block_cycles_qualifying_ticks (example_state started_tuners 1000000)
      [example_env (example_policy 1000000) 40 100 1]
      (example_env (example_policy 1000000) 85 200 1) (by decide) (by decide)).2
      (by decide)⟩

/-! ## Lemmas on the store handlers -/

theorem count_ne_EINVAL (n : Nat) : (n : Int) ≠ -EINVAL := by
  unfold EINVAL
  omega

theorem store_EINVAL_unchanged (a : Attr) (s : GovState) (i : StoreInput) (e : TickEnv)
    (cpu_online : Nat → Bool) (h : (store a s i e cpu_online).2 = -EINVAL) :
    (store a s i e cpu_online).1 = s := by
  have hc := count_ne_EINVAL i.count
  revert h
  cases a <;>
    simp only [store, store_sampling_rate, store_sampling_rate_screen_off,
      store_sampling_down_factor, store_up_threshold, store_up_threshold_hotplug,
      store_down_threshold, store_down_threshold_hotplug, store_boost_cpu,
      store_boost_turn_on_2nd_core, store_boost_gpu, store_boost_hold_cycles,
      store_block_cycles_raise, store_block_cycles_reduce, store_block_cycles_online,
      store_block_cycles_offline, store_disable_hotplugging, store_no_2nd_cpu_screen_off,
      store_ignore_nice_load, store_freq_step_down, store_freq_step_up,
      store_up_freq_threshold_hotplug, store_down_freq_threshold_hotplug] <;>
    split_ifs <;> simp [hc]

theorem store_rejected (a : Attr) (s : GovState) (i : StoreInput) (e : TickEnv)
    (cpu_online : Nat → Bool) (h : rejected_input a s.dbs_tuners_ins i) :
    (store a s i e cpu_online).2 = -EINVAL := by
  cases a <;> simp only [rejected_input] at h <;>
    simp only [store, store_sampling_rate, store_sampling_rate_screen_off,
      store_sampling_down_factor, store_up_threshold, store_up_threshold_hotplug,
      store_down_threshold, store_down_threshold_hotplug, store_boost_cpu,
      store_ignore_nice_load, store_freq_step_down, store_freq_step_up,
      store_up_freq_threshold_hotplug, store_down_freq_threshold_hotplug]
  all_goals first
    | exact absurd h id
    | (rw [if_pos (by omega)])


theorem store_threshold_order (a : Attr) (s : GovState) (i : StoreInput) (e : TickEnv)
    (cpu_online : Nat → Bool) (ha : a = Attr.up_threshold ∨ a = Attr.down_threshold)
    (hinv : 11 ≤ s.dbs_tuners_ins.down_threshold
      ∧ s.dbs_tuners_ins.down_threshold < s.dbs_tuners_ins.up_threshold
      ∧ s.dbs_tuners_ins.up_threshold ≤ 100) :
    11 ≤ (store a s i e cpu_online).1.dbs_tuners_ins.down_threshold
    ∧ (store a s i e cpu_online).1.dbs_tuners_ins.down_threshold
        < (store a s i e cpu_online).1.dbs_tuners_ins.up_threshold
    ∧ (store a s i e cpu_online).1.dbs_tuners_ins.up_threshold ≤ 100 := by
  rcases ha with ha | ha <;> subst ha
  · simp only [store, store_up_threshold]
    split_ifs with h
    · exact hinv
    · simp only
      omega
  · simp only [store, store_down_threshold]
    split_ifs with h
    · exact hinv
    · simp only
      omega

theorem store_boost_cpu_exact (s : GovState) (i : StoreInput) (h1 : i.ret = 1)
    (hle : i.input * 1000 ≤ 2100000) :
    (store_boost_cpu s i).1.dbs_tuners_ins.boost_cpu = i.input * 1000 := by
  have hw : wrap_u32 (i.input * 1000) = i.input * 1000 := Nat.mod_eq_of_lt (by omega)
  have hne : ¬ i.ret ≠ 1 := by simp [h1]
  simp only [store_boost_cpu, if_neg hne, hw]
  simp only [Nat.not_lt_zero, if_false]
  rw [if_neg (by omega), hw]

/-- C14, as stated, fails: `store_freq_step_up` given 101, above the documented range
0..100, does not return `-EINVAL`; it stores 100 and returns the length of the write. -/
theorem C14_counterexample :
    (example_state started_tuners 1000000).dbs_tuners_ins.freq_step_up = 5
    ∧ (store Attr.freq_step_up (example_state started_tuners 1000000) ⟨1, 101, 4⟩
        (example_env (example_policy 1000000) 0 0 1) (fun _ => true)).2 = 4
    ∧ (store Attr.freq_step_up (example_state started_tuners 1000000) ⟨1, 101, 4⟩
        (example_env (example_policy 1000000) 0 0 1)
        (fun _ => true)).1.dbs_tuners_ins.freq_step_up = 100 := by
  decide

theorem store_freq_step_up_accepts (s : GovState) (i : StoreInput) (h1 : i.ret = 1) :
    store_freq_step_up s i
      = ({ s with dbs_tuners_ins := { s.dbs_tuners_ins with freq_step_up := min i.input 100 } },
          (i.count : Int)) := by
  have hne : ¬ i.ret ≠ 1 := by simp [h1]
  have hmin : (if i.input > 100 then 100 else i.input) = min i.input 100 := by
    split_ifs with h
    · exact (Nat.min_eq_right (by omega)).symm
    · exact (Nat.min_eq_left (by omega)).symm
  simp only [store_freq_step_up, if_neg hne, hmin]

theorem store_freq_step_down_accepts (s : GovState) (i : StoreInput) (h1 : i.ret = 1) :
    store_freq_step_down s i
      = ({ s with dbs_tuners_ins := { s.dbs_tuners_ins with freq_step_down := min i.input 100 } },
          (i.count : Int)) := by
  have hne : ¬ i.ret ≠ 1 := by simp [h1]
  have hmin : (if i.input > 100 then 100 else i.input) = min i.input 100 := by
    split_ifs with h
    · exact (Nat.min_eq_right (by omega)).symm
    · exact (Nat.min_eq_left (by omega)).symm
  simp only [store_freq_step_down, if_neg hne, hmin]

/-- C14, amended: a write that `sscanf` could not read, to any handler that tests the
`sscanf` result, and a write of a value outside the range its handler validates
(`sampling_down_factor`, `up_threshold`, `up_threshold_hotplug`, `down_threshold`,
`down_threshold_hotplug`, `up_freq_threshold_hotplug`, `down_freq_threshold_hotplug`),
returns `-EINVAL` and leaves the whole state, `dbs_tuners_ins` included, unchanged;
whenever any handler returns `-EINVAL` the state is unchanged; and a readable write to
`freq_step_up` or `freq_step_down` is never refused: it stores the smaller of the value
and 100, so a value above 100 is stored as 100, changes nothing else, and returns the
length of the write. -/
theorem C14_rejected_write_changes_nothing (a : Attr) (s : GovState) (i : StoreInput)
    (e : TickEnv) (cpu_online : Nat → Bool) :
    (rejected_input a s.dbs_tuners_ins i →
      (store a s i e cpu_online).2 = -EINVAL ∧ (store a s i e cpu_online).1 = s)
    ∧ ((store a s i e cpu_online).2 = -EINVAL → (store a s i e cpu_online).1 = s)
    ∧ (i.ret = 1 →
      store Attr.freq_step_up s i e cpu_online
        = ({ s with dbs_tuners_ins :=
              { s.dbs_tuners_ins with freq_step_up := min i.input 100 } }, (i.count : Int))
      ∧ store Attr.freq_step_down s i e cpu_online
        = ({ s with dbs_tuners_ins :=
              { s.dbs_tuners_ins with freq_step_down := min i.input 100 } }, (i.count : Int)))
    ∧ (i.ret = 1 → 100 < i.input →
      (store Attr.freq_step_up s i e cpu_online).2 = (i.count : Int)
      ∧ (store Attr.freq_step_up s i e cpu_online).1.dbs_tuners_ins.freq_step_up = 100
      ∧ (store Attr.freq_step_down s i e cpu_online).2 = (i.count : Int)
      ∧ (store Attr.freq_step_down s i e cpu_online).1.dbs_tuners_ins.freq_step_down = 100) := by
  refine ⟨fun h => ⟨store_rejected a s i e cpu_online h,
      store_EINVAL_unchanged a s i e cpu_online (store_rejected a s i e cpu_online h)⟩,
    store_EINVAL_unchanged a s i e cpu_online, ?_, ?_⟩
  · intro h1
    exact ⟨store_freq_step_up_accepts s i h1, store_freq_step_down_accepts s i h1⟩
  · intro h1 h100
    have hu : store Attr.freq_step_up s i e cpu_online = _ := store_freq_step_up_accepts s i h1
    have hd : store Attr.freq_step_down s i e cpu_online = _ :=
      store_freq_step_down_accepts s i h1
    rw [hu, hd]
    have hmin : min i.input 100 = 100 := Nat.min_eq_right (by omega)
    exact ⟨rfl, hmin, rfl, hmin⟩

/-- Witness for C14: `up_threshold` given 52, not above `down_threshold = 52`, is refused;
`freq_step_down` given 150 is stored as 100. -/
theorem C14_rejected_write_changes_nothing_witness :
    ((store Attr.up_threshold (example_state started_tuners 1000000) ⟨1, 52, 3⟩
        (example_env (example_policy 1000000) 0 0 1) (fun _ => true)).2 = -EINVAL
      ∧ (store Attr.up_threshold (example_state started_tuners 1000000) ⟨1, 52, 3⟩
        (example_env (example_policy 1000000) 0 0 1) (fun _ => true)).1
        = example_state started_tuners 1000000)
    ∧ (store Attr.freq_step_down (example_state started_tuners 1000000) ⟨1, 150, 4⟩
        (example_env (example_policy 1000000) 0 0 1)
        (fun _ => true)).1.dbs_tuners_ins.freq_step_down = 100 :=
  ⟨(C14_rejected_write_changes_nothing Attr.up_threshold (example_state started_tuners 1000000)
      ⟨1, 52, 3⟩ (example_env (example_policy 1000000) 0 0 1) (fun _ => true)).1
      (Or.inr (Or.inr (by decide))),
    ((C14_rejected_write_changes_nothing Attr.up_threshold
      (example_state started_tuners 1000000)
      ⟨1, 150, 4⟩ (example_env (example_policy 1000000) 0 0 1) (fun _ => true)).2.2.2
      (by decide) (by decide)).2.2.2⟩

/-- C15: from `down_threshold = 52` and `up_threshold = 57`, after any sequence of writes
to `up_threshold` and `down_threshold`, whatever `sscanf` read or failed to read,
`11 ≤ down_threshold < up_threshold ≤ 100`. -/
theorem C15_threshold_order_kept (e : TickEnv) (cpu_online : Nat → Bool) (s : GovState)
    (ws : List (Attr × StoreInput))
    (hd : s.dbs_tuners_ins.down_threshold = 52) (hu : s.dbs_tuners_ins.up_threshold = 57)
    (hws : ∀ w ∈ ws, w.1 = Attr.up_threshold ∨ w.1 = Attr.down_threshold) :
    11 ≤ (run_stores e cpu_online s ws).dbs_tuners_ins.down_threshold
    ∧ (run_stores e cpu_online s ws).dbs_tuners_ins.down_threshold
        < (run_stores e cpu_online s ws).dbs_tuners_ins.up_threshold
    ∧ (run_stores e cpu_online s ws).dbs_tuners_ins.up_threshold ≤ 100 := by
  have hinv : 11 ≤ s.dbs_tuners_ins.down_threshold
      ∧ s.dbs_tuners_ins.down_threshold < s.dbs_tuners_ins.up_threshold
      ∧ s.dbs_tuners_ins.up_threshold ≤ 100 := by
    rw [hd, hu]; decide
  clear hd hu
  induction ws generalizing s with
  | nil => exact hinv
  | cons w ws ih =>
    simp only [run_stores]
    exact ih _ (fun v hv => hws v (List.mem_cons_of_mem w hv))
      (store_threshold_order w.1 s w.2 e cpu_online (hws w (List.mem_cons_self w ws)) hinv)

/-- Witness for C15: four writes, two accepted (`up_threshold` 60, `down_threshold` 59) and
two refused (`up_threshold` 59, `down_threshold` unreadable). -/
theorem C15_threshold_order_kept_witness :
    11 ≤ (run_stores (example_env (example_policy 1000000) 0 0 1) (fun _ => true)
        (example_state started_tuners 1000000)
        [(Attr.up_threshold, ⟨1, 60, 3⟩), (Attr.down_threshold, ⟨1, 59, 3⟩),
          (Attr.up_threshold, ⟨1, 59, 3⟩),
          (Attr.down_threshold, ⟨0, 7, 3⟩)]).dbs_tuners_ins.down_threshold
    ∧ (run_stores (example_env (example_policy 1000000) 0 0 1) (fun _ => true)
        (example_state started_tuners 1000000)
        [(Attr.up_threshold, ⟨1, 60, 3⟩), (Attr.down_threshold, ⟨1, 59, 3⟩),
          (Attr.up_threshold, ⟨1, 59, 3⟩),
          (Attr.down_threshold, ⟨0, 7, 3⟩)]).dbs_tuners_ins.down_threshold
      < (run_stores (example_env (example_policy 1000000) 0 0 1) (fun _ => true)
        (example_state started_tuners 1000000)
        [(Attr.up_threshold, ⟨1, 60, 3⟩), (Attr.down_threshold, ⟨1, 59, 3⟩),
          (Attr.up_threshold, ⟨1, 59, 3⟩),
          (Attr.down_threshold, ⟨0, 7, 3⟩)]).dbs_tuners_ins.up_threshold
    ∧ (run_stores (example_env (example_policy 1000000) 0 0 1) (fun _ => true)
        (example_state started_tuners 1000000)
        [(Attr.up_threshold, ⟨1, 60, 3⟩), (Attr.down_threshold, ⟨1, 59, 3⟩),
          (Attr.up_threshold, ⟨1, 59, 3⟩),
          (Attr.down_threshold, ⟨0, 7, 3⟩)]).dbs_tuners_ins.up_threshold ≤ 100 :=
  C15_threshold_order_kept (example_env (example_policy 1000000) 0 0 1) (fun _ => true)
    (example_state started_tuners 1000000)
    [(Attr.up_threshold, ⟨1, 60, 3⟩), (Attr.down_threshold, ⟨1, 59, 3⟩),
      (Attr.up_threshold, ⟨1, 59, 3⟩), (Attr.down_threshold, ⟨0, 7, 3⟩)]
    (by decide) (by decide) (by decide)

/-- C16 (the code departs from the claim): `store_boost_cpu` given 2101 finds
`2101 * 1000 > 2100000`, sets `input` to 2100000 rather than 2100, and stores
`2100000 * 1000 = 2100000000`, far above 2100000; a value with `input * 1000 ≤ 2100000`,
such as 800, is stored exactly. -/
theorem C16_boost_cpu_cap_slip :
    (store_boost_cpu (example_state started_tuners 1000000) ⟨1, 2101, 5⟩).2 = 5
    ∧ (store_boost_cpu (example_state started_tuners 1000000)
        ⟨1, 2101, 5⟩).1.dbs_tuners_ins.boost_cpu = 2100000000
    ∧ ¬ (store_boost_cpu (example_state started_tuners 1000000)
        ⟨1, 2101, 5⟩).1.dbs_tuners_ins.boost_cpu ≤ 2100000
    ∧ (store_boost_cpu (example_state started_tuners 1000000)
        ⟨1, 800, 4⟩).1.dbs_tuners_ins.boost_cpu = 800000 := by
  decide

/-- C17, as stated, fails: `store_sampling_rate` with a readable value clears
`boostpulse_relayf`. -/
theorem C17_counterexample :
    (boostpulse_relay_kt (example_state started_tuners 1000000) 1).1.boostpulse_relayf = true
    ∧ (store Attr.sampling_rate (boostpulse_relay_kt (example_state started_tuners 1000000) 1).1
        ⟨1, 45000, 6⟩ (example_env (example_policy 1000000) 0 0 1)
        (fun _ => true)).1.boostpulse_relayf = false := by
  decide

/-- C17, amended: every store handler other than `store_sampling_rate`, for every input,
and `screen_is_on_relay_kt` leave `boostpulse_relayf` and `boost_hold_cycles_cnt`
unchanged; `store_sampling_rate` leaves the hold count unchanged and leaves the flag
unchanged when `sscanf` could not read the write, but clears the flag when it could. -/
theorem C17_writes_and_boost_state (a : Attr) (s : GovState) (i : StoreInput) (e : TickEnv)
    (cpu_online : Nat → Bool) (state : Bool) :
    (a ≠ Attr.sampling_rate →
      (store a s i e cpu_online).1.boostpulse_relayf = s.boostpulse_relayf
      ∧ (store a s i e cpu_online).1.boost_hold_cycles_cnt = s.boost_hold_cycles_cnt)
    ∧ (store_sampling_rate s i).1.boost_hold_cycles_cnt = s.boost_hold_cycles_cnt
    ∧ (i.ret ≠ 1 → (store_sampling_rate s i).1.boostpulse_relayf = s.boostpulse_relayf)
    ∧ (i.ret = 1 → (store_sampling_rate s i).1.boostpulse_relayf = false)
    ∧ (screen_is_on_relay_kt s state).boostpulse_relayf = s.boostpulse_relayf
    ∧ (screen_is_on_relay_kt s state).boost_hold_cycles_cnt = s.boost_hold_cycles_cnt := by
  refine ⟨?_, ?_, ?_, ?_, ?_, ?_⟩
  · intro ha
    cases a <;>
      simp only [store, store_sampling_rate_screen_off,
        store_sampling_down_factor, store_up_threshold, store_up_threshold_hotplug,
        store_down_threshold, store_down_threshold_hotplug, store_boost_cpu,
        store_boost_turn_on_2nd_core, store_boost_gpu, store_boost_hold_cycles,
        store_block_cycles_raise, store_block_cycles_reduce, store_block_cycles_online,
        store_block_cycles_offline, store_disable_hotplugging, store_no_2nd_cpu_screen_off,
        store_ignore_nice_load, store_freq_step_down, store_freq_step_up,
        store_up_freq_threshold_hotplug, store_down_freq_threshold_hotplug] <;>
      first
        | exact absurd rfl ha
        | exact ⟨trivial, trivial⟩
        | (split_ifs <;> simp)
  · simp only [store_sampling_rate]
    split_ifs <;> simp
  · intro h
    simp only [store_sampling_rate, if_pos h]
  · intro h
    have hne : ¬ i.ret ≠ 1 := by simp [h]
    simp only [store_sampling_rate, if_neg hne]
  · simp only [screen_is_on_relay_kt]
    split_ifs <;> simp
  · simp only [screen_is_on_relay_kt]
    split_ifs <;> simp

/-- Witness for C17: during a boost, a write to `boost_hold_cycles` keeps the flag and an
unreadable write to `sampling_rate` keeps it too. -/
theorem C17_writes_and_boost_state_witness :
    (store Attr.boost_hold_cycles (boostpulse_relay_kt (example_state started_tuners 1000000) 1).1
        ⟨1, 30, 3⟩ (example_env (example_policy 1000000) 0 0 1)
        (fun _ => true)).1.boostpulse_relayf = true
    ∧ (store_sampling_rate (boostpulse_relay_kt (example_state started_tuners 1000000) 1).1
        ⟨0, 30, 3⟩).1.boostpulse_relayf = true :=
  ⟨((C17_writes_and_boost_state Attr.boost_hold_cycles
        (boostpulse_relay_kt (example_state started_tuners 1000000) 1).1 ⟨1, 30, 3⟩
        (example_env (example_policy 1000000) 0 0 1) (fun _ => true) true).1
        (by decide)).1,
    (C17_writes_and_boost_state Attr.boost_hold_cycles
        (boostpulse_relay_kt (example_state started_tuners 1000000) 1).1 ⟨0, 30, 3⟩
        (example_env (example_policy 1000000) 0 0 1) (fun _ => true) true).2.2.1
        (by decide)⟩

/-! ## Lemmas on the reduce step and the boost branch -/

theorem freq_reduce_stop (s : GovState) (e : TickEnv)
    (h : wrap_u32 (s.Lblock_cycles_reduce + 1) > s.dbs_tuners_ins.block_cycles_reduce)
    (hcur : e.policy.cur = e.policy.min) :
    (freq_reduce s e).2 = []
    ∧ (freq_reduce s e).1.requested_freq = s.requested_freq
    ∧ (freq_reduce s e).1.Lblock_cycles_raise = 0
    ∧ (freq_reduce s e).1.Lblock_cycles_reduce = 0 := by
  simp only [freq_reduce, if_pos h, if_pos hcur]
  simp

theorem hysteresis_reduce_tick (s : GovState) (e : TickEnv) (L : Nat)
    (h0 : ¬ (s.dbs_tuners_ins.freq_step_up = 0 ∨ s.dbs_tuners_ins.freq_step_down = 0))
    (hL : ¬ L > s.dbs_tuners_ins.up_threshold)
    (hd : L < sub_u32 s.dbs_tuners_ins.down_threshold 10) :
    ∃ (t : GovState) (cs : List Call),
      (∀ c ∈ cs, c = Call.schedule_hotplug_online_work ∨ c = Call.schedule_hotplug_offline_work)
      ∧ t.dbs_tuners_ins = s.dbs_tuners_ins
      ∧ t.requested_freq = s.requested_freq
      ∧ t.Lblock_cycles_raise = s.Lblock_cycles_raise
      ∧ t.Lblock_cycles_reduce = s.Lblock_cycles_reduce
      ∧ hysteresis s e L = ((freq_reduce t e).1, cs ++ (freq_reduce t e).2) := by
  have f1 := hotplug_online_check_frame s e L
  have c1 := hotplug_online_check_calls s e L
  have f3 := hotplug_offline_check_frame (hotplug_online_check s e L).1 e L
  have c3 := hotplug_offline_check_calls (hotplug_online_check s e L).1 e L
  refine ⟨(hotplug_offline_check (hotplug_online_check s e L).1 e L).1,
    (hotplug_online_check s e L).2 ++ (hotplug_offline_check (hotplug_online_check s e L).1 e L).2,
    ?_, f3.1.trans f1.1, f3.2.2.2.1.trans f1.2.2.2.1,
    f3.2.2.2.2.1.trans f1.2.2.2.2.1, f3.2.2.2.2.2.trans f1.2.2.2.2.2, ?_⟩
  · intro c hc
    rcases List.mem_append.1 hc with h | h
    · exact Or.inl (c1.1 c h)
    · exact Or.inr (c3.1 c h)
  · exact hysteresis_reduce s e L h0 hL hd

/-- A tick whose load is below `down_threshold - 10` and not above `up_threshold`: the
two hotplug checks run, leaving a state `t` that agrees with `s` on everything the reduce
step reads, and then the reduce step runs. -/
theorem reduce_tick (s : GovState) (e : TickEnv) (hb : s.boostpulse_relayf = false)
    (h0 : ¬ (s.dbs_tuners_ins.freq_step_up = 0 ∨ s.dbs_tuners_ins.freq_step_down = 0))
    (hL : ¬ max_load s e > s.dbs_tuners_ins.up_threshold)
    (hd : max_load s e < sub_u32 s.dbs_tuners_ins.down_threshold 10) :
    ∃ (t : GovState) (cs : List Call),
      (∀ c ∈ cs, c = Call.schedule_hotplug_online_work ∨ c = Call.schedule_hotplug_offline_work)
      ∧ t.dbs_tuners_ins = s.dbs_tuners_ins
      ∧ t.requested_freq = s.requested_freq
      ∧ t.Lblock_cycles_raise = s.Lblock_cycles_raise
      ∧ t.Lblock_cycles_reduce = s.Lblock_cycles_reduce
      ∧ dbs_check_cpu s e = ((freq_reduce t e).1, cs ++ (freq_reduce t e).2) := by
  rw [dbs_check_cpu_normal s e hb]
  exact hysteresis_reduce_tick { s with cpus := (load_loop s.dbs_tuners_ins e s.cpus 0).1 } e _
    h0 hL hd

theorem boost_tick_skip (s : GovState) (e : TickEnv)
    (h : s.requested_freq = e.policy.max ∨ e.policy.cur ≥ s.dbs_tuners_ins.boost_cpu
      ∨ s.requested_freq > s.dbs_tuners_ins.boost_cpu) :
    (boost_tick s e).2 = [] ∧ (boost_tick s e).1.requested_freq = s.requested_freq := by
  simp only [boost_tick]
  split_ifs <;> simp_all

theorem boost_tick_force (s : GovState) (e : TickEnv)
    (h : ¬ (s.requested_freq = e.policy.max ∨ e.policy.cur ≥ s.dbs_tuners_ins.boost_cpu
      ∨ s.requested_freq > s.dbs_tuners_ins.boost_cpu)) :
    (boost_tick s e).2
      = [Call.cpufreq_driver_target s.dbs_tuners_ins.boost_cpu Relation.CPUFREQ_RELATION_H]
    ∧ (boost_tick s e).1.requested_freq = s.dbs_tuners_ins.boost_cpu := by
  simp only [boost_tick]
  split_ifs <;> simp_all

/-- C18, as stated, fails: with `requested_freq = policy.min = 200000` but
`policy.cur = 300000`, load 0 and `block_cycles_reduce = 0`, the reduce step does not stop:
it subtracts the step, clamps back to `policy.min` and calls
`__cpufreq_driver_target(200000)`. -/
theorem C18_counterexample :
    (example_state { started_tuners with block_cycles_reduce := 0 } 200000).requested_freq
      = (example_policy 300000).min
    ∧ max_load (example_state { started_tuners with block_cycles_reduce := 0 } 200000)
        (example_env (example_policy 300000) 100 100 1) = 0
    ∧ (dbs_check_cpu (example_state { started_tuners with block_cycles_reduce := 0 } 200000)
        (example_env (example_policy 300000) 100 100 1)).2
      = [Call.cpufreq_driver_target 200000 Relation.CPUFREQ_RELATION_H] := by
  decide

/-- C18, amended: in the frequency-reduce step (boost inactive, non-zero steps, load not
above `up_threshold`, load below `down_threshold - 10` and the incremented reduce counter
above `block_cycles_reduce`), whenever `policy.cur` equals `policy.min`, for every
`requested_freq`, the tick calls no `__cpufreq_driver_target`, leaves `requested_freq`
unchanged and resets the raise and reduce counters to 0. -/
theorem C18_reduce_stops_at_policy_min (s : GovState) (e : TickEnv)
    (hb : s.boostpulse_relayf = false)
    (h0 : ¬ (s.dbs_tuners_ins.freq_step_up = 0 ∨ s.dbs_tuners_ins.freq_step_down = 0))
    (hL : ¬ max_load s e > s.dbs_tuners_ins.up_threshold)
    (hd : max_load s e < sub_u32 s.dbs_tuners_ins.down_threshold 10)
    (hcnt : wrap_u32 (s.Lblock_cycles_reduce + 1) > s.dbs_tuners_ins.block_cycles_reduce)
    (hcur : e.policy.cur = e.policy.min) :
    (∀ f rel, Call.cpufreq_driver_target f rel ∉ (dbs_check_cpu s e).2)
    ∧ (dbs_check_cpu s e).1.requested_freq = s.requested_freq
    ∧ (dbs_check_cpu s e).1.Lblock_cycles_raise = 0
    ∧ (dbs_check_cpu s e).1.Lblock_cycles_reduce = 0 := by
  obtain ⟨t, cs, hcs, ht, hq, -, hre, htick⟩ := reduce_tick s e hb h0 hL hd
  have hstop := freq_reduce_stop t e (by rw [ht, hre]; exact hcnt) hcur
  rw [htick]
  refine ⟨?_, by rw [← hq]; exact hstop.2.1, hstop.2.2.1, hstop.2.2.2⟩
  intro f rel hmem
  rcases List.mem_append.1 hmem with h | h
  · rcases hcs _ h with h1 | h1 <;> cases h1
  · rw [hstop.1] at h
    cases h

/-- Witness for C18: `policy.cur = policy.min = 200000` while `requested_freq = 250000`. -/
theorem C18_reduce_stops_at_policy_min_witness :
    (dbs_check_cpu (example_state { started_tuners with block_cycles_reduce := 0 } 250000)
        (example_env (example_policy 200000) 100 100 1)).1.requested_freq = 250000 :=
  (C18_reduce_stops_at_policy_min
    (example_state { started_tuners with block_cycles_reduce := 0 } 250000)
    (example_env (example_policy 200000) 100 100 1)
    (by decide) (by decide) (by decide) (by decide) (by decide) (by decide)).2.1

/-- C19, as stated, fails: in a boost tick with `policy.cur = boost_cpu = 800000` and
`requested_freq = 700000`, neither `policy.cur > boost_cpu` nor
`requested_freq > boost_cpu` holds, yet no call is made and `requested_freq` stays
700000. -/
theorem C19_counterexample :
    (boostpulse_relay_kt (example_state started_tuners 700000) 1).1.boostpulse_relayf = true
    ∧ (boostpulse_relay_kt (example_state started_tuners 700000) 1).1.dbs_tuners_ins.boost_cpu
      = 800000
    ∧ (boostpulse_relay_kt (example_state started_tuners 700000) 1).1.requested_freq = 700000
    ∧ (dbs_check_cpu (boostpulse_relay_kt (example_state started_tuners 700000) 1).1
        (example_env (example_policy 800000) 0 0 1)).2 = []
    ∧ (dbs_check_cpu (boostpulse_relay_kt (example_state started_tuners 700000) 1).1
        (example_env (example_policy 800000) 0 0 1)).1.requested_freq = 700000 := by
  decide

/-- C19, amended: in a boost tick, if `requested_freq = policy.max` or
`policy.cur ≥ boost_cpu` or `requested_freq > boost_cpu`, no call is made and
`requested_freq` is unchanged; otherwise `requested_freq` becomes `boost_cpu` and the only
call is `__cpufreq_driver_target(boost_cpu, CPUFREQ_RELATION_H)`. -/
theorem C19_boost_tick_frequency (s : GovState) (e : TickEnv)
    (hb : s.boostpulse_relayf = true) :
    ((s.requested_freq = e.policy.max ∨ e.policy.cur ≥ s.dbs_tuners_ins.boost_cpu
        ∨ s.requested_freq > s.dbs_tuners_ins.boost_cpu) →
      (dbs_check_cpu s e).2 = [] ∧ (dbs_check_cpu s e).1.requested_freq = s.requested_freq)
    ∧ (¬ (s.requested_freq = e.policy.max ∨ e.policy.cur ≥ s.dbs_tuners_ins.boost_cpu
        ∨ s.requested_freq > s.dbs_tuners_ins.boost_cpu) →
      (dbs_check_cpu s e).2
        = [Call.cpufreq_driver_target s.dbs_tuners_ins.boost_cpu Relation.CPUFREQ_RELATION_H]
      ∧ (dbs_check_cpu s e).1.requested_freq = s.dbs_tuners_ins.boost_cpu) := by
  rw [dbs_check_cpu_boost s e hb]
  exact ⟨boost_tick_skip s e, boost_tick_force s e⟩

/-- Witness for C19: a boost tick at `policy.cur = 600000` forces 800000. -/
theorem C19_boost_tick_frequency_witness :
    (dbs_check_cpu (boostpulse_relay_kt (example_state started_tuners 600000) 1).1
        (example_env (example_policy 600000) 0 0 1)).2
      = [Call.cpufreq_driver_target 800000 Relation.CPUFREQ_RELATION_H]
    ∧ (dbs_check_cpu (boostpulse_relay_kt (example_state started_tuners 600000) 1).1
        (example_env (example_policy 600000) 0 0 1)).1.requested_freq = 800000 :=
  (C19_boost_tick_frequency (boostpulse_relay_kt (example_state started_tuners 600000) 1).1
    (example_env (example_policy 600000) 0 0 1) (by decide)).2 (by decide)

/-- C20, as stated, fails: with `policy.max = 700000` below `boost_cpu = 800000`, a boost
tick moves an in-bounds `requested_freq = 600000` to 800000, above `policy.max`. -/
theorem C20_counterexample :
    (boostpulse_relay_kt (example_state started_tuners 600000) 1).1.boostpulse_relayf = true
    ∧ 200000 ≤ (boostpulse_relay_kt (example_state started_tuners 600000) 1).1.requested_freq
    ∧ (boostpulse_relay_kt (example_state started_tuners 600000) 1).1.requested_freq ≤ 700000
    ∧ (dbs_check_cpu (boostpulse_relay_kt (example_state started_tuners 600000) 1).1
        (example_env ⟨200000, 700000, 600000⟩ 0 0 1)).1.requested_freq = 800000 := by
  decide

/-- C20, amended: for every domain state with
`policy.min ≤ requested_freq ≤ policy.max` and every `boost_cpu ≤ policy.max`, a boost
tick leaves `requested_freq` within `[policy.min, policy.max]`. -/
theorem C20_boost_tick_in_bounds (s : GovState) (e : TickEnv)
    (hb : s.boostpulse_relayf = true)
    (hmin : e.policy.min ≤ s.requested_freq) (hmax : s.requested_freq ≤ e.policy.max)
    (hboost : s.dbs_tuners_ins.boost_cpu ≤ e.policy.max) :
    e.policy.min ≤ (dbs_check_cpu s e).1.requested_freq
    ∧ (dbs_check_cpu s e).1.requested_freq ≤ e.policy.max := by
  rw [dbs_check_cpu_boost s e hb]
  by_cases h : s.requested_freq = e.policy.max ∨ e.policy.cur ≥ s.dbs_tuners_ins.boost_cpu
      ∨ s.requested_freq > s.dbs_tuners_ins.boost_cpu
  · rw [(boost_tick_skip s e h).2]
    exact ⟨hmin, hmax⟩
  · rw [(boost_tick_force s e h).2]
    omega

/-- Witness for C20: the default `boost_cpu = 800000` under `policy.max = 1800000`. -/
theorem C20_boost_tick_in_bounds_witness :
    (example_policy 600000).min
      ≤ (dbs_check_cpu (boostpulse_relay_kt (example_state started_tuners 600000) 1).1
        (example_env (example_policy 600000) 0 0 1)).1.requested_freq
    ∧ (dbs_check_cpu (boostpulse_relay_kt (example_state started_tuners 600000) 1).1
        (example_env (example_policy 600000) 0 0 1)).1.requested_freq
      ≤ (example_policy 600000).max :=
  C20_boost_tick_in_bounds (boostpulse_relay_kt (example_state started_tuners 600000) 1).1
    (example_env (example_policy 600000) 0 0 1) (by decide) (by decide) (by decide) (by decide)

/-! ## Lemmas on the raise target -/

theorem raise_target_exact (tun : dbs_tuners) (policy : cpufreq_policy) (requested_freq : Nat)
    (h1 : tun.freq_step_up * policy.max < 4294967296)
    (h2 : requested_freq + spec_raise_step tun.freq_step_up policy.max < 4294967296) :
    raise_target tun policy requested_freq
      = min (requested_freq + spec_raise_step tun.freq_step_up policy.max) policy.max := by
  have hw1 : wrap_u32 (tun.freq_step_up * policy.max) = tun.freq_step_up * policy.max :=
    Nat.mod_eq_of_lt h1
  simp only [raise_target, hw1]
  have hstep : (if tun.freq_step_up * policy.max / 100 = 0 then 5
      else tun.freq_step_up * policy.max / 100)
      = spec_raise_step tun.freq_step_up policy.max := rfl
  rw [hstep]
  have hw2 : wrap_u32 (requested_freq + spec_raise_step tun.freq_step_up policy.max)
      = requested_freq + spec_raise_step tun.freq_step_up policy.max := Nat.mod_eq_of_lt h2
  rw [hw2]
  split_ifs with h
  · exact (Nat.min_eq_right (by omega)).symm
  · exact (Nat.min_eq_left (by omega)).symm

theorem freq_raise_at_max (s : GovState) (e : TickEnv)
    (h : wrap_u32 (s.Lblock_cycles_raise + 1) ≥ s.dbs_tuners_ins.block_cycles_raise)
    (hmax : s.requested_freq = e.policy.max) :
    (freq_raise s e).2 = []
    ∧ (freq_raise s e).1.requested_freq = s.requested_freq
    ∧ (freq_raise s e).1.Lblock_cycles_raise = 0
    ∧ (freq_raise s e).1.Lblock_cycles_reduce = 0 := by
  simp only [freq_raise, if_pos h, if_pos hmax]
  simp

/-- C21: in the frequency-raise step (boost inactive, non-zero steps, load above
`up_threshold`, incremented raise counter at least `block_cycles_raise`): when
`requested_freq ≠ policy.max` and neither `freq_step_up * policy.max` nor
`requested_freq + step` leaves 32 bits, the new `requested_freq` is
`min (requested_freq + step) policy.max`, the tick calls `__cpufreq_driver_target` with
exactly that value and `CPUFREQ_RELATION_H` and with nothing else, and the raise and
reduce counters are 0; when `requested_freq = policy.max` the tick makes no
`__cpufreq_driver_target` call (all it can emit is the hotplug online work of the check
before the raise step), keeps `requested_freq` and resets both counters to 0. -/
theorem C21_raise_step (s : GovState) (e : TickEnv)
    (hb : s.boostpulse_relayf = false)
    (h0 : ¬ (s.dbs_tuners_ins.freq_step_up = 0 ∨ s.dbs_tuners_ins.freq_step_down = 0))
    (hL : max_load s e > s.dbs_tuners_ins.up_threshold)
    (hcnt : wrap_u32 (s.Lblock_cycles_raise + 1) ≥ s.dbs_tuners_ins.block_cycles_raise) :
    (s.requested_freq ≠ e.policy.max →
      s.dbs_tuners_ins.freq_step_up * e.policy.max < 4294967296 →
      s.requested_freq + spec_raise_step s.dbs_tuners_ins.freq_step_up e.policy.max
        < 4294967296 →
      (dbs_check_cpu s e).1.requested_freq
        = min (s.requested_freq + spec_raise_step s.dbs_tuners_ins.freq_step_up e.policy.max)
            e.policy.max
      ∧ Call.cpufreq_driver_target
          (min (s.requested_freq + spec_raise_step s.dbs_tuners_ins.freq_step_up e.policy.max)
            e.policy.max) Relation.CPUFREQ_RELATION_H ∈ (dbs_check_cpu s e).2
      ∧ (∀ f rel, Call.cpufreq_driver_target f rel ∈ (dbs_check_cpu s e).2 →
          f = min (s.requested_freq
                + spec_raise_step s.dbs_tuners_ins.freq_step_up e.policy.max) e.policy.max
          ∧ rel = Relation.CPUFREQ_RELATION_H)
      ∧ (dbs_check_cpu s e).1.Lblock_cycles_raise = 0
      ∧ (dbs_check_cpu s e).1.Lblock_cycles_reduce = 0)
    ∧ (s.requested_freq = e.policy.max →
      (∀ f rel, Call.cpufreq_driver_target f rel ∉ (dbs_check_cpu s e).2)
      ∧ (∀ c ∈ (dbs_check_cpu s e).2, c = Call.schedule_hotplug_online_work)
      ∧ (dbs_check_cpu s e).1.requested_freq = s.requested_freq
      ∧ (dbs_check_cpu s e).1.Lblock_cycles_raise = 0
      ∧ (dbs_check_cpu s e).1.Lblock_cycles_reduce = 0) := by
  obtain ⟨t, cs, hcs, ht, hq, hra, -, htick⟩ := raise_tick s e hb h0 hL
  have hcnt' : wrap_u32 (t.Lblock_cycles_raise + 1) ≥ t.dbs_tuners_ins.block_cycles_raise := by
    rw [ht, hra]; exact hcnt
  rw [htick]
  constructor
  · intro hne h1 h2
    have hfire := freq_raise_fire t e hcnt' (by rw [hq]; exact hne)
    rw [ht, hq, raise_target_exact s.dbs_tuners_ins e.policy s.requested_freq h1 h2] at hfire
    refine ⟨hfire.2.1, ?_, ?_, hfire.2.2.1, hfire.2.2.2⟩
    · show _ ∈ cs ++ (freq_raise t e).2
      rw [hfire.1]
      simp
    · intro f rel hmem
      rcases List.mem_append.1 hmem with h | h
      · cases hcs _ h
      · rw [hfire.1] at h
        simp only [List.mem_singleton] at h
        injection h with h3 h4
        exact ⟨h3, h4⟩
  · intro heq
    have hstop := freq_raise_at_max t e hcnt' (by rw [hq]; exact heq)
    have hall : ∀ c ∈ cs ++ (freq_raise t e).2, c = Call.schedule_hotplug_online_work := by
      intro c hmem
      rw [hstop.1, List.append_nil] at hmem
      exact hcs c hmem
    refine ⟨?_, hall, by rw [← hq]; exact hstop.2.1, hstop.2.2.1, hstop.2.2.2⟩
    intro f rel hmem
    cases hall _ hmem

/-- Witness for C21: `block_cycles_raise = 1`, load 60, `requested_freq = 1000000` under
`policy.max = 1800000`: the tick raises to 1090000. -/
theorem C21_raise_step_witness :
    (dbs_check_cpu (example_state { started_tuners with block_cycles_raise := 1 } 1000000)
        (example_env (example_policy 1000000) 40 100 1)).1.requested_freq
      = min (1000000 + spec_raise_step 5 1800000) 1800000 :=
  ((C21_raise_step (example_state { started_tuners with block_cycles_raise := 1 } 1000000)
    (example_env (example_policy 1000000) 40 100 1)
    (by decide) (by decide) (by decide) (by decide)).1 (by decide) (by decide) (by decide)).1

/-! ## Lemmas on what the boost branch and the hotplug checks leave alone -/

theorem boost_tick_frame (s : GovState) (e : TickEnv) :
    (boost_tick s e).1.Lblock_cycles_online = s.Lblock_cycles_online
    ∧ (boost_tick s e).1.Lblock_cycles_offline = s.Lblock_cycles_offline
    ∧ (boost_tick s e).1.Lblock_cycles_raise = s.Lblock_cycles_raise
    ∧ (boost_tick s e).1.Lblock_cycles_reduce = s.Lblock_cycles_reduce
    ∧ (boost_tick s e).1.cpus = s.cpus := by
  simp only [boost_tick]
  split_ifs <;> simp

theorem hotplug_online_check_offline_le (s : GovState) (e : TickEnv) (L : Nat) :
    (hotplug_online_check s e L).1.Lblock_cycles_offline ≤ s.Lblock_cycles_offline := by
  simp only [hotplug_online_check]
  split_ifs <;> simp

theorem hysteresis_hotplug_counters (s : GovState) (e : TickEnv) (L : Nat) :
    (e.num_online_cpus ≥ 2 →
      (hysteresis s e L).1.Lblock_cycles_online ≤ s.Lblock_cycles_online)
    ∧ (e.num_online_cpus ≤ 1 →
      (hysteresis s e L).1.Lblock_cycles_offline ≤ s.Lblock_cycles_offline) := by
  have f2 := freq_raise_frame (hotplug_online_check s e L).1 e
  have f4 := freq_reduce_frame (hotplug_offline_check (hotplug_online_check s e L).1 e L).1 e
  have l3 := hotplug_offline_check_online_le (hotplug_online_check s e L).1 e L
  have l1 := hotplug_online_check_offline_le s e L
  constructor
  · intro hn
    have h1 : hotplug_online_check s e L = (s, []) :=
      hotplug_online_check_idle s e L (by omega)
    rw [h1] at f2 f4 l3
    by_cases h0 : s.dbs_tuners_ins.freq_step_up = 0 ∨ s.dbs_tuners_ins.freq_step_down = 0
    · rw [hysteresis_disabled s e L h0]
    by_cases hL : L > s.dbs_tuners_ins.up_threshold
    · rw [hysteresis_raise s e L h0 hL, h1]
      exact Nat.le_of_eq f2.2.2.2.1
    by_cases hd : L < sub_u32 s.dbs_tuners_ins.down_threshold 10
    · rw [hysteresis_reduce s e L h0 hL hd, h1]
      exact (Nat.le_of_eq f4.2.2.2.1).trans l3
    · rw [hysteresis_hold s e L h0 hL hd, h1]
      exact l3
  · intro hn
    have h3 : hotplug_offline_check (hotplug_online_check s e L).1 e L
        = ((hotplug_online_check s e L).1, []) :=
      hotplug_offline_check_idle _ e L (by omega)
    rw [h3] at f4
    by_cases h0 : s.dbs_tuners_ins.freq_step_up = 0 ∨ s.dbs_tuners_ins.freq_step_down = 0
    · rw [hysteresis_disabled s e L h0]
    by_cases hL : L > s.dbs_tuners_ins.up_threshold
    · rw [hysteresis_raise s e L h0 hL]
      exact (Nat.le_of_eq f2.2.2.2.2).trans l1
    by_cases hd : L < sub_u32 s.dbs_tuners_ins.down_threshold 10
    · rw [hysteresis_reduce s e L h0 hL hd, h3]
      exact (Nat.le_of_eq f4.2.2.2.2).trans l1
    · rw [hysteresis_hold s e L h0 hL hd, h3]
      exact l1

/-- C22: whenever the boost is active on entry, the tick leaves the four debounce
counters and every CPU's stored previous wall, idle and nice sample unchanged and
schedules neither the hotplug online work nor the hotplug offline work. -/
theorem C22_boost_tick_frame (s : GovState) (e : TickEnv) (hb : s.boostpulse_relayf = true) :
    (dbs_check_cpu s e).1.Lblock_cycles_online = s.Lblock_cycles_online
    ∧ (dbs_check_cpu s e).1.Lblock_cycles_offline = s.Lblock_cycles_offline
    ∧ (dbs_check_cpu s e).1.Lblock_cycles_raise = s.Lblock_cycles_raise
    ∧ (dbs_check_cpu s e).1.Lblock_cycles_reduce = s.Lblock_cycles_reduce
    ∧ (dbs_check_cpu s e).1.cpus = s.cpus
    ∧ Call.schedule_hotplug_online_work ∉ (dbs_check_cpu s e).2
    ∧ Call.schedule_hotplug_offline_work ∉ (dbs_check_cpu s e).2 := by
  have hf := boost_tick_frame s e
  have hc := boost_tick_calls s e
  rw [dbs_check_cpu_boost s e hb]
  refine ⟨hf.1, hf.2.1, hf.2.2.1, hf.2.2.2.1, hf.2.2.2.2, ?_, ?_⟩
  · intro h
    obtain ⟨f, hf⟩ := hc _ h
    cases hf
  · intro h
    obtain ⟨f, hf⟩ := hc _ h
    cases hf

/-- Witness for C22: a boost tick on a CPU that has been 90 percent busy keeps the stored
samples and makes the single call that forces 800000. -/
theorem C22_boost_tick_frame_witness :
    (dbs_check_cpu (boostpulse_relay_kt (example_state started_tuners 600000) 1).1
        (example_env (example_policy 600000) 10 100 1)).1.cpus = [⟨0, 0, 0, 0⟩]
    ∧ Call.schedule_hotplug_online_work
        ∉ (dbs_check_cpu (boostpulse_relay_kt (example_state started_tuners 600000) 1).1
            (example_env (example_policy 600000) 10 100 1)).2 :=
  ⟨(C22_boost_tick_frame (boostpulse_relay_kt (example_state started_tuners 600000) 1).1
      (example_env (example_policy 600000) 10 100 1) (by decide)).2.2.2.2.1,
    (C22_boost_tick_frame (boostpulse_relay_kt (example_state started_tuners 600000) 1).1
      (example_env (example_policy 600000) 10 100 1) (by decide)).2.2.2.2.2.1⟩

/-- C23: `boostpulse_relay_kt` called while the boost is inactive leaves it inactive
exactly when `boost_turn_on_2nd_core`, `boost_cpu` and `boost_gpu` are all 0, whatever the
number of online CPUs; in that case it makes no call and changes nothing; in every other
case it sets `boostpulse_relayf` and sets `boost_hold_cycles_cnt` to 0. -/
theorem C23_trigger_is_noop_iff_all_zero (s : GovState) (n : Nat)
    (hb : s.boostpulse_relayf = false) :
    ((boostpulse_relay_kt s n).1.boostpulse_relayf = false ↔
      (s.dbs_tuners_ins.boost_turn_on_2nd_core = 0 ∧ s.dbs_tuners_ins.boost_cpu = 0
        ∧ s.dbs_tuners_ins.boost_gpu = 0))
    ∧ ((s.dbs_tuners_ins.boost_turn_on_2nd_core = 0 ∧ s.dbs_tuners_ins.boost_cpu = 0
        ∧ s.dbs_tuners_ins.boost_gpu = 0) →
      (boostpulse_relay_kt s n).2 = [] ∧ (boostpulse_relay_kt s n).1 = s)
    ∧ (¬ (s.dbs_tuners_ins.boost_turn_on_2nd_core = 0 ∧ s.dbs_tuners_ins.boost_cpu = 0
        ∧ s.dbs_tuners_ins.boost_gpu = 0) →
      (boostpulse_relay_kt s n).1.boostpulse_relayf = true
      ∧ (boostpulse_relay_kt s n).1.boost_hold_cycles_cnt = 0) := by
  have hzero : (s.dbs_tuners_ins.boost_turn_on_2nd_core = 0 ∧ s.dbs_tuners_ins.boost_cpu = 0
        ∧ s.dbs_tuners_ins.boost_gpu = 0) →
      (boostpulse_relay_kt s n).2 = [] ∧ (boostpulse_relay_kt s n).1 = s := by
    intro hz
    have h1 : ¬ (n < 2 ∧ s.dbs_tuners_ins.boost_turn_on_2nd_core ≠ 0) := fun h => h.2 hz.1
    have hg : gpu_boost_calls s.dbs_tuners_ins = [] := by
      simp [gpu_boost_calls, hz.2.2]
    simp only [boostpulse_relay_kt, if_pos hb, if_neg h1, if_pos hz, hg]
    simp
  have hact : ¬ (s.dbs_tuners_ins.boost_turn_on_2nd_core = 0 ∧ s.dbs_tuners_ins.boost_cpu = 0
        ∧ s.dbs_tuners_ins.boost_gpu = 0) →
      (boostpulse_relay_kt s n).1.boostpulse_relayf = true
      ∧ (boostpulse_relay_kt s n).1.boost_hold_cycles_cnt = 0 := by
    intro hz
    simp only [boostpulse_relay_kt, if_pos hb, if_neg hz]
    split_ifs <;> simp
  refine ⟨⟨?_, ?_⟩, hzero, hact⟩
  · intro hf
    by_contra hz
    rw [(hact hz).1] at hf
    cases hf
  · intro hz
    rw [(hzero hz).2]
    exact hb

/-- Witness for C23: with all three boost tunables 0 the trigger does nothing. -/
theorem C23_trigger_is_noop_iff_all_zero_witness :
    (boostpulse_relay_kt
      (example_state
        { started_tuners with boost_turn_on_2nd_core := 0, boost_cpu := 0, boost_gpu := 0 }
        600000) 1).1.boostpulse_relayf = false :=
  (C23_trigger_is_noop_iff_all_zero
    (example_state
      { started_tuners with boost_turn_on_2nd_core := 0, boost_cpu := 0, boost_gpu := 0 }
      600000) 1 (by decide)).1.2 (by decide)

/-- C24: for wall and idle deltas `w > 0`, `w ≥ i`, also when `100 * (w - i)` wraps modulo
`2^32`, the CPU is sampled and its load is at most 100; and the domain load `max_load` a
tick computes is at most 100. -/
theorem C24_load_at_most_100 (w i : Nat) (hw : 0 < w) (hi : i ≤ w) :
    (∃ load, cpu_load w i = some load ∧ load ≤ 100)
    ∧ ∀ (s : GovState) (e : TickEnv), max_load s e ≤ 100 := by
  refine ⟨?_, max_load_le_100⟩
  have hskip : ¬ (w = 0 ∨ w < i) := by omega
  refine ⟨wrap_u32 (100 * (w - i)) / w, ?_, ?_⟩
  · unfold cpu_load
    rw [if_neg hskip]
  · apply cpu_load_le_100 w i
    unfold cpu_load
    rw [if_neg hskip]

/-- Witness for C24: `w = 50000000`, `i = 0`, where the product wraps. -/
theorem C24_load_at_most_100_witness :
    ∃ load, cpu_load 50000000 0 = some load ∧ load ≤ 100 :=
  (C24_load_at_most_100 50000000 0 (by decide) (by decide)).1

/-- C25: with the number of online CPUs read as one value for the tick, a single call of
`dbs_check_cpu` never schedules both the hotplug online work and the hotplug offline
work; at least one of the two hotplug checks leaves its state untouched, whatever state
and load it runs on (the online check increments only with fewer than 2 CPUs online, the
offline check only with more than 1); and the tick never leaves both
`Lblock_cycles_online` and `Lblock_cycles_offline` above their values on entry. -/
theorem C25_hotplug_checks_exclusive (s : GovState) (e : TickEnv) :
    ¬ (Call.schedule_hotplug_online_work ∈ (dbs_check_cpu s e).2
        ∧ Call.schedule_hotplug_offline_work ∈ (dbs_check_cpu s e).2)
    ∧ ((∀ (s1 : GovState) (L : Nat), hotplug_online_check s1 e L = (s1, []))
        ∨ (∀ (s2 : GovState) (L : Nat), hotplug_offline_check s2 e L = (s2, [])))
    ∧ ((dbs_check_cpu s e).1.Lblock_cycles_online ≤ s.Lblock_cycles_online
        ∨ (dbs_check_cpu s e).1.Lblock_cycles_offline ≤ s.Lblock_cycles_offline) := by
  refine ⟨?_, ?_, ?_⟩
  · intro h
    cases hb : s.boostpulse_relayf with
    | true =>
      rw [dbs_check_cpu_boost s e hb] at h
      obtain ⟨f, hf⟩ := boost_tick_calls s e _ h.1
      cases hf
    | false =>
      rw [dbs_check_cpu_normal s e hb] at h
      obtain ⟨hot, fr, heq, hhot, hfr⟩ := hysteresis_shape
        { s with cpus := (load_loop s.dbs_tuners_ins e s.cpus 0).1 } e (max_load s e)
      rw [heq] at h
      rcases hfr with hfr | ⟨f, hfr⟩ <;> rcases hhot with hh | hh | hh <;>
        rw [hh, hfr] at h <;> simp at h
  · by_cases hn : e.num_online_cpus ≥ 2
    · exact Or.inl (fun s1 L => hotplug_online_check_idle s1 e L (by omega))
    · exact Or.inr (fun s2 L => hotplug_offline_check_idle s2 e L (by omega))
  · cases hb : s.boostpulse_relayf with
    | true =>
      rw [dbs_check_cpu_boost s e hb]
      exact Or.inl (Nat.le_of_eq (boost_tick_frame s e).1)
    | false =>
      rw [dbs_check_cpu_normal s e hb]
      have h := hysteresis_hotplug_counters
        { s with cpus := (load_loop s.dbs_tuners_ins e s.cpus 0).1 } e (max_load s e)
      by_cases hn : e.num_online_cpus ≥ 2
      · exact Or.inl (h.1 hn)
      · exact Or.inr (h.2 (by omega))

/-- C26: for every `sampling_rate` and every `sampling_rate_screen_off` above 0, the first
`screen_is_on_relay_kt(false)` saves the rate in `stored_sampling_rate`, the second one
overwrites the saved rate with `sampling_rate_screen_off`, and the
`screen_is_on_relay_kt(true)` that follows leaves `sampling_rate` equal to
`sampling_rate_screen_off` (the value it restores from `stored_sampling_rate`); so it is
not the rate from before the calls unless the two rates were equal. -/
theorem C26_repeated_screen_off (s : GovState)
    (hs : 0 < s.dbs_tuners_ins.sampling_rate_screen_off) :
    (screen_is_on_relay_kt s false).stored_sampling_rate = s.dbs_tuners_ins.sampling_rate
    ∧ (screen_is_on_relay_kt (screen_is_on_relay_kt s false) false).stored_sampling_rate
        = s.dbs_tuners_ins.sampling_rate_screen_off
    ∧ (screen_is_on_relay_kt (screen_is_on_relay_kt (screen_is_on_relay_kt s false) false)
        true).stored_sampling_rate = s.dbs_tuners_ins.sampling_rate_screen_off
    ∧ (screen_is_on_relay_kt (screen_is_on_relay_kt (screen_is_on_relay_kt s false) false)
        true).dbs_tuners_ins.sampling_rate
        = (screen_is_on_relay_kt (screen_is_on_relay_kt s false) false).stored_sampling_rate
    ∧ (screen_is_on_relay_kt (screen_is_on_relay_kt (screen_is_on_relay_kt s false) false)
        true).dbs_tuners_ins.sampling_rate = s.dbs_tuners_ins.sampling_rate_screen_off
    ∧ (s.dbs_tuners_ins.sampling_rate ≠ s.dbs_tuners_ins.sampling_rate_screen_off →
      (screen_is_on_relay_kt (screen_is_on_relay_kt (screen_is_on_relay_kt s false) false)
        true).dbs_tuners_ins.sampling_rate ≠ s.dbs_tuners_ins.sampling_rate) := by
  have h1 : (screen_is_on_relay_kt s false).stored_sampling_rate
      = s.dbs_tuners_ins.sampling_rate := by
    simp [screen_is_on_relay_kt]
  have h2 : (screen_is_on_relay_kt (screen_is_on_relay_kt s false) false).stored_sampling_rate
      = s.dbs_tuners_ins.sampling_rate_screen_off := by
    simp [screen_is_on_relay_kt]
  have h3 : (screen_is_on_relay_kt (screen_is_on_relay_kt (screen_is_on_relay_kt s false) false)
        true).stored_sampling_rate = s.dbs_tuners_ins.sampling_rate_screen_off := by
    simp [screen_is_on_relay_kt, hs]
  have h : (screen_is_on_relay_kt (screen_is_on_relay_kt (screen_is_on_relay_kt s false) false)
        true).dbs_tuners_ins.sampling_rate = s.dbs_tuners_ins.sampling_rate_screen_off := by
    simp [screen_is_on_relay_kt, hs]
  exact ⟨h1, h2, h3, h.trans h2.symm, h, fun hne heq => hne (heq.symm.trans h)⟩

/-- Witness for C26: `sampling_rate = 45000` and `sampling_rate_screen_off = 60000`. -/
theorem C26_repeated_screen_off_witness :
    (screen_is_on_relay_kt (screen_is_on_relay_kt
        (example_state { started_tuners with sampling_rate_screen_off := 60000 } 600000)
        false) false).stored_sampling_rate = 60000
    ∧ (screen_is_on_relay_kt (screen_is_on_relay_kt (screen_is_on_relay_kt
        (example_state { started_tuners with sampling_rate_screen_off := 60000 } 600000)
        false) false) true).dbs_tuners_ins.sampling_rate = 60000 :=
  ⟨(C26_repeated_screen_off
      (example_state { started_tuners with sampling_rate_screen_off := 60000 } 600000)
      (by decide)).2.1,
    (C26_repeated_screen_off
      (example_state { started_tuners with sampling_rate_screen_off := 60000 } 600000)
      (by decide)).2.2.2.2.1⟩

end Ktoonservative
